import Mathlib

/-!
Verification development for the Broly WhatsApp reminder bot.

The definitions below are a shallow embedding of the TypeScript sources:
the minute-resolution cron scheduler (`src/reminders/scheduler.ts`, the
full version with recurring reminders and weather subscriptions) and the
`/whatsapp` webhook handler (`src/index.ts`).  Wall-clock instants are
modelled at minute granularity as calendar tuples, matching the
scheduler's use of `getFullYear`/`getMonth`/`getDate`/`getHours`/
`getMinutes`.  External collaborators (Twilio sends, the Gemini NLP
parser, the OpenWeatherMap lookup, Prisma persistence success) are
modelled as explicit oracle parameters; a Twilio send that rejects is
represented by the corresponding oracle returning `true` ("the send
threw").  Outbound messages are recorded as `(to, body)` pairs at each
call of the send helper.
-/

set_option maxHeartbeats 1000000

namespace Broly

/-- Wall-clock instant at minute granularity.  `month` is 1-based and
`day` is the day of month (1-based), mirroring the calendar components
the scheduler reads off a JS `Date`. -/
structure Date where
  year : Nat
  month : Nat
  day : Nat
  hour : Nat
  minute : Nat
deriving DecidableEq, Repr

/-- Strict chronological order on minute-granularity instants
(lexicographic on year, month, day, hour, minute); models
`moment.isBefore` and `Date` comparison. -/
def Date.before (a b : Date) : Bool :=
  if a.year ≠ b.year then a.year < b.year
  else if a.month ≠ b.month then a.month < b.month
  else if a.day ≠ b.day then a.day < b.day
  else if a.hour ≠ b.hour then a.hour < b.hour
  else a.minute < b.minute

/-- Non-strict chronological order; models the Prisma filter
`time: { lte: now }`. -/
def Date.lte (a b : Date) : Bool :=
  Date.before a b || a == b

/-- Strict order on the calendar-day part only (year, month, day). -/
def Date.dayLt (a b : Date) : Bool :=
  if a.year ≠ b.year then a.year < b.year
  else if a.month ≠ b.month then a.month < b.month
  else a.day < b.day

/-- Gregorian leap-year test. -/
def isLeapYear (y : Nat) : Bool :=
  (y % 4 == 0 && y % 100 != 0) || y % 400 == 0

/-- Number of days in the given month (1-based) of the given year. -/
def daysInMonth (y m : Nat) : Nat :=
  if m == 2 then (if isLeapYear y then 29 else 28)
  else if m == 4 || m == 6 || m == 9 || m == 11 then 30
  else 31

/-- Advance an instant by one calendar day, keeping the time of day;
models `moment.add(1, "day")`. -/
def Date.addOneDay (d : Date) : Date :=
  if d.day < daysInMonth d.year d.month then { d with day := d.day + 1 }
  else if d.month < 12 then { d with month := d.month + 1, day := 1 }
  else { year := d.year + 1, month := 1, day := 1, hour := d.hour, minute := d.minute }

/-- Advance an instant by a number of calendar days. -/
def Date.addDays : Date → Nat → Date
  | d, 0 => d
  | d, n + 1 => Date.addDays d.addOneDay n

/-- Advance an instant by a number of minutes, rolling over hours and
days; models `new Date(now.getTime() + offsetMs)` at minute
granularity. -/
def Date.addMinutes (d : Date) (n : Nat) : Date :=
  let tot := d.hour * 60 + d.minute + n
  { Date.addDays { d with hour := 0, minute := 0 } (tot / 1440) with
      hour := tot % 1440 / 60, minute := tot % 60 }

/-- Left-pad the decimal representation to two characters with a zero;
models `.toString().padStart(2, "0")`. -/
def pad2 (n : Nat) : String :=
  let s := toString n
  if s.length < 2 then "0" ++ s else s

/-- Format the time of day as "HH:mm" (24-hour); models
`getCurrentTimeString` in the scheduler. -/
def getCurrentTimeString (d : Date) : String :=
  pad2 d.hour ++ ":" ++ pad2 d.minute

/-- Two instants fall on the same calendar day; models `isSameDay`. -/
def isSameDay (a b : Date) : Bool :=
  a.year == b.year && a.month == b.month && a.day == b.day

/-- Two instants fall in the same year and month; models
`isSameYearMonth`. -/
def isSameYearMonth (a b : Date) : Bool :=
  a.year == b.year && a.month == b.month

/-- Format an instant as "YYYY-MM-DD HH:mm"; models
`moment(...).format("YYYY-MM-DD HH:mm")`. -/
def formatDate (d : Date) : String :=
  toString d.year ++ "-" ++ pad2 d.month ++ "-" ++ pad2 d.day ++ " " ++
    pad2 d.hour ++ ":" ++ pad2 d.minute

/-- User record (Prisma `User`). -/
structure User where
  id : Nat
  whatsappNumber : String
  profileName : Option String
  reminderCount : Nat
  lastReminderMessage : Option String
  lastReminderTime : Option Date
deriving DecidableEq, Repr

/-- One-time reminder record (Prisma `Reminder`). -/
structure Reminder where
  id : Nat
  userId : Nat
  message : String
  time : Date
deriving DecidableEq, Repr

/-- Recurrence kind of a recurring reminder. -/
inductive RecurrenceType where
  | DAILY
  | MONTHLY
deriving DecidableEq, Repr

/-- Recurring reminder record (Prisma `RecurringReminder`). -/
structure RecurringReminder where
  id : Nat
  userId : Nat
  message : String
  recurrenceType : RecurrenceType
  timeOfDay : String
  dayOfMonth : Option Nat
  active : Bool
  lastTriggeredAt : Option Date
deriving DecidableEq, Repr

/-- Weather subscription record (Prisma `WeatherSubscription`). -/
structure WeatherSubscription where
  id : Nat
  userId : Nat
  city : String
  active : Bool
  lastSentAt : Option Date
deriving DecidableEq, Repr

/-- Persistent store: the four record tables plus autoincrement
counters for freshly created rows. -/
structure DB where
  users : List User
  reminders : List Reminder
  recurring : List RecurringReminder
  weatherSubs : List WeatherSubscription
  nextReminderId : Nat
  nextRecurringId : Nat
  nextWeatherSubId : Nat
deriving DecidableEq, Repr

/-- Resolve the owning user of a record (the Prisma `include: { user }`
relation lookup by `userId`). -/
def findUser (users : List User) (uid : Nat) : Option User :=
  users.find? (fun u => u.id == uid)

/-- Outbound message attempt: destination address and body text. -/
abbrev Send := String × String

/-! ### Scheduler (src/reminders/scheduler.ts, full version)

Each sweep iterates over a snapshot list fetched up front (`findMany`)
and mutates the store per item.  `cfg` is true when the Twilio
credentials and phone number are all present; `sendFails id` is true
when the Twilio send for the record with that id rejects (throws). -/

/-- One-time sweep loop body.  For each due reminder: skip if the owner
is missing; otherwise attempt the send (when configured) and delete the
row.  Both the send and the delete sit in one try/catch, so a throwing
send skips the delete. -/
def runOneTime (cfg : Bool) (sendFails : Nat → Bool) (users : List User) :
    List Reminder → List Reminder → List Reminder × List Send
  | [], rems => (rems, [])
  | r :: due, rems =>
    match findUser users r.userId with
    | none => runOneTime cfg sendFails users due rems
    | some u =>
      if cfg then
        let s : Send := (u.whatsappNumber, "Reminder: " ++ r.message)
        if sendFails r.id then
          -- the send threw: the catch block skips the delete
          let (rems', sends) := runOneTime cfg sendFails users due rems
          (rems', s :: sends)
        else
          let (rems', sends) :=
            runOneTime cfg sendFails users due (rems.filter (fun x => x.id != r.id))
          (rems', s :: sends)
      else
        -- Twilio config incomplete: warn (no send), still delete
        runOneTime cfg sendFails users due (rems.filter (fun x => x.id != r.id))

/-- One-time sweep: select rows with `time <= now` and run the loop. -/
def oneTimeSweep (cfg : Bool) (sendFails : Nat → Bool) (now : Date) (db : DB) :
    DB × List Send :=
  let due := db.reminders.filter (fun r => Date.lte r.time now)
  let (rems, sends) := runOneTime cfg sendFails db.users due db.reminders
  ({ db with reminders := rems }, sends)

/-- Fire decision for an active recurring reminder at instant `now`:
the configured time of day must equal `now` formatted as "HH:mm"; DAILY
additionally requires `lastTriggeredAt` null or a different calendar
day; MONTHLY requires a truthy `dayOfMonth` equal to `now`'s day of
month and `lastTriggeredAt` null or a different year-month. -/
def recurringFires (now : Date) (rr : RecurringReminder) : Bool :=
  rr.timeOfDay == getCurrentTimeString now &&
  (match rr.recurrenceType with
   | RecurrenceType.DAILY =>
     match rr.lastTriggeredAt with
     | none => true
     | some last => !isSameDay now last
   | RecurrenceType.MONTHLY =>
     match rr.dayOfMonth with
     | none => false
     | some dom =>
       dom != 0 && dom == now.day &&
       (match rr.lastTriggeredAt with
        | none => true
        | some last => !isSameYearMonth now last))

/-- Set `lastTriggeredAt` of the row with the given id; models the
Prisma `update` by id. -/
def markTriggered (now : Date) (rid : Nat) (rrs : List RecurringReminder) :
    List RecurringReminder :=
  rrs.map (fun x => if x.id == rid then { x with lastTriggeredAt := some now } else x)

/-- Recurring sweep loop body over the snapshot of active rows.  Skip
rows without an owner or that do not fire; otherwise attempt the send
(when configured) and update `lastTriggeredAt := now`.  Send and update
share one try/catch, so a throwing send skips the update. -/
def runRecurring (cfg : Bool) (sendFails : Nat → Bool) (users : List User) (now : Date) :
    List RecurringReminder → List RecurringReminder → List RecurringReminder × List Send
  | [], rrs => (rrs, [])
  | rr :: snap, rrs =>
    match findUser users rr.userId with
    | none => runRecurring cfg sendFails users now snap rrs
    | some u =>
      if recurringFires now rr then
        if cfg then
          let s : Send := (u.whatsappNumber, "Recurring reminder: " ++ rr.message)
          if sendFails rr.id then
            -- the send threw: the catch block skips the update
            let (rrs', sends) := runRecurring cfg sendFails users now snap rrs
            (rrs', s :: sends)
          else
            let (rrs', sends) :=
              runRecurring cfg sendFails users now snap (markTriggered now rr.id rrs)
            (rrs', s :: sends)
        else
          runRecurring cfg sendFails users now snap (markTriggered now rr.id rrs)
      else
        runRecurring cfg sendFails users now snap rrs

/-- Recurring sweep: snapshot the active rows and run the loop. -/
def recurringSweep (cfg : Bool) (sendFails : Nat → Bool) (now : Date) (db : DB) :
    DB × List Send :=
  let snap := db.recurring.filter (fun rr => rr.active)
  let (rrs, sends) := runRecurring cfg sendFails db.users now snap db.recurring
  ({ db with recurring := rrs }, sends)

/-- Weather main-section fields of an OpenWeatherMap response.
Temperatures are modelled as the integers produced by `Math.round`. -/
structure WeatherMain where
  temp : Option Int
  feels_like : Option Int
  humidity : Option Nat
deriving DecidableEq, Repr

/-- Outcome of the weather HTTP fetch for a city: an OK response with
its parsed fields (the `weather[0].description` field alongside the
main section), a non-OK HTTP status, or a thrown fetch error. -/
inductive FetchOutcome where
  | ok (main : WeatherMain) (desc : Option String)
  | httpError (status : Nat)
  | thrown
deriving DecidableEq, Repr

/-- Weather summary for a city; models `fetchWeatherSummary`.  Returns
null when the API key is missing, the HTTP status is not OK, or the
fetch throws.  An OK response missing the temperature or with a falsy
description yields the "not available" text — still a non-null
summary. -/
def fetchWeatherSummary (apiKey : Bool) (outcome : FetchOutcome) (city : String) :
    Option String :=
  if !apiKey then none
  else
    match outcome with
    | FetchOutcome.httpError _ => none
    | FetchOutcome.thrown => none
    | FetchOutcome.ok main desc =>
      match main.temp, desc with
      | some t, some d =>
        if d == "" then
          some ("Weather information not available for " ++ city ++ ".")
        else
          some ("Weather in " ++ city ++ " now: " ++ toString t ++ "°C, " ++ d ++
            ". Feels like " ++ toString (main.feels_like.getD t) ++ "°C. Humidity: " ++
            (match main.humidity with
             | some h => toString h
             | none => "N/A") ++ "%.")
      | _, _ => some ("Weather information not available for " ++ city ++ ".")

/-- Set `lastSentAt` of the subscription with the given id. -/
def markSent (now : Date) (sid : Nat) (subs : List WeatherSubscription) :
    List WeatherSubscription :=
  subs.map (fun x => if x.id == sid then { x with lastSentAt := some now } else x)

/-- Weather sweep loop body over the snapshot of active subscriptions.
Skip rows without an owner or already served today; a null summary is
skipped without touching `lastSentAt`; otherwise attempt the send (when
configured) and set `lastSentAt := now` — the update is skipped only
when the send throws. -/
def runWeather (cfg : Bool) (sendFails : Nat → Bool) (apiKey : Bool)
    (weather : String → FetchOutcome) (users : List User) (now : Date) :
    List WeatherSubscription → List WeatherSubscription →
      List WeatherSubscription × List Send
  | [], subs => (subs, [])
  | sub :: snap, subs =>
    match findUser users sub.userId with
    | none => runWeather cfg sendFails apiKey weather users now snap subs
    | some u =>
      if (match sub.lastSentAt with
          | some last => isSameDay now last
          | none => false) then
        runWeather cfg sendFails apiKey weather users now snap subs
      else
        match fetchWeatherSummary apiKey (weather sub.city) sub.city with
        | none => runWeather cfg sendFails apiKey weather users now snap subs
        | some summary =>
          if cfg then
            let s : Send := (u.whatsappNumber, "Daily weather update: " ++ summary)
            if sendFails sub.id then
              -- the send threw: the catch block skips the update
              let (subs', sends) := runWeather cfg sendFails apiKey weather users now snap subs
              (subs', s :: sends)
            else
              let (subs', sends) :=
                runWeather cfg sendFails apiKey weather users now snap (markSent now sub.id subs)
              (subs', s :: sends)
          else
            runWeather cfg sendFails apiKey weather users now snap (markSent now sub.id subs)

/-- Weather sweep: runs only when `now` formats as "09:00" and the API
key is present; snapshots the active subscriptions and runs the loop. -/
def weatherSweep (cfg : Bool) (sendFails : Nat → Bool) (apiKey : Bool)
    (weather : String → FetchOutcome) (now : Date) (db : DB) : DB × List Send :=
  if getCurrentTimeString now == "09:00" && apiKey then
    let snap := db.weatherSubs.filter (fun sub => sub.active)
    let (subs, sends) := runWeather cfg sendFails apiKey weather db.users now snap db.weatherSubs
    ({ db with weatherSubs := subs }, sends)
  else (db, [])

/-- One scheduler tick: the three sweeps in order, all reading the same
`now`. -/
def schedulerTick (cfg : Bool) (sendFails : Nat → Bool) (apiKey : Bool)
    (weather : String → FetchOutcome) (now : Date) (db : DB) : DB × List Send :=
  let (db1, s1) := oneTimeSweep cfg sendFails now db
  let (db2, s2) := recurringSweep cfg sendFails now db1
  let (db3, s3) := weatherSweep cfg sendFails apiKey weather now db2
  (db3, s1 ++ s2 ++ s3)

/-! ### String machinery

The webhook handler works on JS strings with regexes; we model texts as
`List Char` and implement the handful of regexes it uses directly. -/

/-- Whitespace test used for JS `\s` and `trim` (ASCII subset). -/
def isWS (c : Char) : Bool :=
  c == ' ' || c == '\t' || c == '\n' || c == '\r'

/-- JS word character, for `\b` boundaries: `[A-Za-z0-9_]`. -/
def isWordChar (c : Char) : Bool :=
  c.isAlphanum || c == '_'

/-- Trim leading and trailing whitespace from a character list. -/
def jsTrimL (l : List Char) : List Char :=
  ((l.dropWhile isWS).reverse.dropWhile isWS).reverse

/-- JS `String.prototype.trim`. -/
def jsTrim (s : String) : String :=
  (jsTrimL s.toList).asString

/-- Lowercase every character; models `toLowerCase` (ASCII). -/
def lowerL (l : List Char) : List Char :=
  l.map Char.toLower

mutual

/-- Main split loop for `split(/\s+/)`: accumulate the current token
until a whitespace run starts. -/
def jsSplitWsGo : List Char → List Char → List (List Char)
  | [], cur => [cur.reverse]
  | c :: rest, cur =>
    if isWS c then cur.reverse :: jsSplitWsSkip rest
    else jsSplitWsGo rest (c :: cur)

/-- Skip the rest of a whitespace run, then resume token accumulation.
A trailing run yields a trailing empty token, as in JS. -/
def jsSplitWsSkip : List Char → List (List Char)
  | [] => [[]]
  | c :: rest =>
    if isWS c then jsSplitWsSkip rest
    else jsSplitWsGo rest [c]

end

/-- JS `split(/\s+/)` on a character list. -/
def jsSplitWs (l : List Char) : List (List Char) :=
  jsSplitWsGo l []

/-- Does `l` begin with `pat`? -/
def beginsWith : List Char → List Char → Bool
  | _, [] => true
  | [], _ :: _ => false
  | c :: l, p :: pat => c == p && beginsWith l pat

/-- Does `l` begin with `pat`, comparing case-insensitively? -/
def beginsWithCI : List Char → List Char → Bool
  | _, [] => true
  | [], _ :: _ => false
  | c :: l, p :: pat => c.toLower == p.toLower && beginsWithCI l pat

/-- Does `pat` occur as a contiguous substring of `l`?  Models JS
`String.prototype.includes`. -/
def containsSub : List Char → List Char → Bool
  | l, pat =>
    if beginsWith l pat then true
    else
      match l with
      | [] => false
      | _ :: rest => containsSub rest pat

/-- Drop a literal prefix, or fail. -/
def dropLit : List Char → List Char → Option (List Char)
  | l, [] => some l
  | [], _ :: _ => none
  | c :: l, p :: pat => if c == p then dropLit l pat else none

/-- Drop a literal prefix case-insensitively, or fail. -/
def dropLitCI : List Char → List Char → Option (List Char)
  | l, [] => some l
  | [], _ :: _ => none
  | c :: l, p :: pat => if c.toLower == p.toLower then dropLitCI l pat else none

/-- Consume one-or-more whitespace characters (`\s+`), or fail. -/
def dropWS1 : List Char → Option (List Char)
  | c :: l => if isWS c then some (l.dropWhile isWS) else none
  | [] => none

/-- Maximal run of decimal digits and the remainder. -/
def takeDigits (l : List Char) : List Char × List Char :=
  (l.takeWhile Char.isDigit, l.dropWhile Char.isDigit)

/-- Numeric value of a digit run. -/
def digitsToNat (l : List Char) : Nat :=
  l.foldl (fun acc c => acc * 10 + (c.toNat - 48)) 0

/-- Word boundary after a digit run: end of input or a non-word
character (`\b` cannot sit between two word characters, and shrinking
the digit run cannot restore it). -/
def boundaryAt : List Char → Bool
  | [] => true
  | c :: _ => !isWordChar c

/-- Regex `^cancel\s+recurring\s+(\d+)\b` on the lowercased text,
returning the parsed id. -/
def matchCancelRecurring (l : List Char) : Option Nat :=
  (dropLit l "cancel".toList).bind fun l =>
  (dropWS1 l).bind fun l =>
  (dropLit l "recurring".toList).bind fun l =>
  (dropWS1 l).bind fun l =>
    let (ds, rest) := takeDigits l
    if ds.isEmpty then none
    else if boundaryAt rest then some (digitsToNat ds) else none

/-- Regex `^cancel\s+(\d+)\b` on the lowercased text, returning the
parsed id. -/
def matchCancelOneTime (l : List Char) : Option Nat :=
  (dropLit l "cancel".toList).bind fun l =>
  (dropWS1 l).bind fun l =>
    let (ds, rest) := takeDigits l
    if ds.isEmpty then none
    else if boundaryAt rest then some (digitsToNat ds) else none

/-- Regex `^\s*subscribe\s+weather\s+(.+)$` (case-insensitive) on the
original text, returning the captured city (which must not span a line
break and keeps its original case). -/
def matchSubscribeCity (l : List Char) : Option (List Char) :=
  (dropLitCI (l.dropWhile isWS) "subscribe".toList).bind fun l =>
  (dropWS1 l).bind fun l =>
  (dropLitCI l "weather".toList).bind fun l =>
  (dropWS1 l).bind fun l =>
    if l.isEmpty then none
    else if l.any (fun c => c == '\n' || c == '\r') then none
    else some l

/-- Regex `^\s*subscribe\s+weather\s*$` (case-insensitive). -/
def isSubscribeWeatherBare (l : List Char) : Bool :=
  match (dropLitCI (l.dropWhile isWS) "subscribe".toList).bind fun l =>
        (dropWS1 l).bind fun l =>
        dropLitCI l "weather".toList with
  | some rest => (rest.dropWhile isWS).isEmpty
  | none => false

/-- Successful relative-time regex match: the matched substring
(group 0 of `in\s+(\d+)\s*(min|mins|minute|minutes|hour|hours)\b`),
the parsed amount and whether the unit is a minute unit. -/
structure RelMatch where
  match0 : List Char
  amount : Nat
  isMin : Bool
deriving DecidableEq, Repr

/-- Unit alternation of the relative-time regex, in source order.  Each
alternative must be followed by a word boundary. -/
def relUnitAlts : List (List Char × Bool) :=
  [("min".toList, true), ("mins".toList, true), ("minute".toList, true),
   ("minutes".toList, true), ("hour".toList, false), ("hours".toList, false)]

/-- Try the unit alternatives in order at the current position. -/
def matchUnit (l : List Char) : List (List Char × Bool) → Option (List Char × Bool × List Char)
  | [] => none
  | (alt, isMin) :: alts =>
    match dropLit l alt with
    | some rest => if boundaryAt rest then some (alt, isMin, rest) else matchUnit l alts
    | none => matchUnit l alts

/-- Attempt the relative-time regex at the current position. -/
def matchRelAt (l : List Char) : Option RelMatch :=
  (dropLit l "in".toList).bind fun l1 =>
  match l1 with
  | c :: l2 =>
    if isWS c then
      let ws := l2.takeWhile isWS
      let l3 := l2.dropWhile isWS
      let (ds, l4) := takeDigits l3
      if ds.isEmpty then none
      else
        let ws2 := l4.takeWhile isWS
        let l5 := l4.dropWhile isWS
        match matchUnit l5 relUnitAlts with
        | some (alt, isMin, _) =>
          some { match0 := "in".toList ++ (c :: ws) ++ ds ++ ws2 ++ alt,
                 amount := digitsToNat ds, isMin := isMin }
        | none => none
    else none
  | [] => none

/-- Leftmost match of the relative-time regex in the lowercased text. -/
def searchRel : List Char → Option RelMatch
  | [] => none
  | l@(_ :: rest) =>
    match matchRelAt l with
    | some m => some m
    | none => searchRel rest

/-- Remove the first occurrence of `pat` from `l` (case-sensitive);
models JS `String.prototype.replace` with a plain-string pattern. -/
def removeFirstSub : List Char → List Char → Option (List Char)
  | l, pat =>
    if beginsWith l pat then some (l.drop pat.length)
    else
      match l with
      | [] => none
      | c :: rest => (removeFirstSub rest pat).map (fun r => c :: r)

/-- Replace the first occurrence of `pat` in `l` by nothing, leaving
`l` unchanged when `pat` does not occur. -/
def replaceFirstSub (l pat : List Char) : List Char :=
  (removeFirstSub l pat).getD l

/-- Remove the first case-insensitive occurrence of the word "today"
flanked by `\b` word boundaries; models `replace(/\btoday\b/i, "")`.
The boolean argument tracks whether the previous character was a word
character (no boundary before the match). -/
def removeTodayFrom : Bool → List Char → List Char
  | _, [] => []
  | prevWord, c :: rest =>
    if !prevWord && beginsWithCI (c :: rest) "today".toList &&
        boundaryAt ((c :: rest).drop 5) then
      (c :: rest).drop 5
    else c :: removeTodayFrom (isWordChar c) rest

/-- Strip a case-insensitive anchored prefix followed by `\s*`; models
`replace(/^LIT\s*/i, "")`. -/
def stripLeadCI (l pat : List Char) : List Char :=
  match dropLitCI l pat with
  | some rest => rest.dropWhile isWS
  | none => l

/-- Relative-parse result: cleaned message and target instant. -/
structure RelParse where
  reminderMessage : String
  datetime : Date
deriving DecidableEq, Repr

/-- Fallback relative-time parser; models `parseSimpleRelativeReminder`.
The regex is matched against the lowercased text, but the matched
substring is removed from the original text with a case-sensitive
replace.  A cleaned message that trims to empty falls back to the
trimmed original text. -/
def parseSimpleRelativeReminder (now : Date) (text : String) : Option RelParse :=
  let lower := lowerL text.toList
  match searchRel lower with
  | none => none
  | some m =>
    if m.amount == 0 then none
    else
      let offsetMin := if m.isMin then m.amount else m.amount * 60
      let datetime := Date.addMinutes now offsetMin
      let cleaned := replaceFirstSub text.toList m.match0
      let cleaned := removeTodayFrom false cleaned
      let cleaned := stripLeadCI cleaned "remind me to".toList
      let cleaned := stripLeadCI cleaned "remind me".toList
      let cleaned := jsTrimL cleaned
      let cleaned := if cleaned.isEmpty then jsTrimL text.toList else cleaned
      some { reminderMessage := cleaned.asString, datetime := datetime }

/-! ### Strict time parsing (moment with formats
`["HH:mm", "H:mm", "h:mm A", "h:mma"]` and strict mode)

Between `HH:mm` and `H:mm` the hour accepts one or two digits (the `H`
and `h` tokens match one-or-two digits even in strict mode), but the
`mm` token's strict regex is exactly two digits, so a single-digit
minute such as `9:5` is rejected.  The meridiem token accepts
`[ap]\.?m?\.?` case-insensitively; a 12-hour value above 12 is
rejected. -/

/-- Parse one or two digits greedily with backtracking: the two-digit
reading is preferred, the one-digit reading is tried if the
continuation fails (used for the hour, which the format list admits
with one or two digits). -/
def take2or1 (l : List Char) (k : Nat → List Char → Option (Nat × Nat)) :
    Option (Nat × Nat) :=
  match l with
  | a :: b :: rest =>
    if a.isDigit then
      if b.isDigit then
        match k ((a.toNat - 48) * 10 + (b.toNat - 48)) rest with
        | some v => some v
        | none => k (a.toNat - 48) (b :: rest)
      else k (a.toNat - 48) (b :: rest)
    else none
  | [a] => if a.isDigit then k (a.toNat - 48) [] else none
  | [] => none

/-- Parse exactly two digits (strict-mode `mm`, whose strict regex is
`\d\d`). -/
def take2 (l : List Char) (k : Nat → List Char → Option (Nat × Nat)) :
    Option (Nat × Nat) :=
  match l with
  | a :: b :: rest =>
    if a.isDigit && b.isDigit then k ((a.toNat - 48) * 10 + (b.toNat - 48)) rest
    else none
  | [_] => none
  | [] => none

/-- Formats "HH:mm" / "H:mm": hour 0–23, two-digit minute 0–59,
nothing left over. -/
def parse24 (l : List Char) : Option (Nat × Nat) :=
  take2or1 l fun h l =>
    match l with
    | ':' :: l =>
      take2 l fun m l =>
        if l.isEmpty && h ≤ 23 && m ≤ 59 then some (h, m) else none
    | _ => none

/-- Consume an optional dot (`\.?`). -/
def optDot (l : List Char) : List Char :=
  match l with
  | c :: r => if c == '.' then r else c :: r
  | [] => []

/-- Consume an optional m/M (`m?`, case-insensitive). -/
def optM (l : List Char) : List Char :=
  match l with
  | c :: r => if c == 'm' || c == 'M' then r else c :: r
  | [] => []

/-- Meridiem suffix `[ap]\.?m?\.?` consuming the whole remainder;
returns true for PM. -/
def meridiemFull (l : List Char) : Option Bool :=
  match l with
  | c :: rest =>
    if c == 'a' || c == 'A' || c == 'p' || c == 'P' then
      if (optDot (optM (optDot rest))).isEmpty then some (c == 'p' || c == 'P') else none
    else none
  | [] => none

/-- Convert a 12-hour reading with meridiem to 24-hour; hours above 12
are rejected (moment's bigHour flag). -/
def from12 (h m : Nat) (isPM : Bool) : Option (Nat × Nat) :=
  if h > 12 || m > 59 then none
  else
    let h24 := if isPM then (if h < 12 then h + 12 else h) else (if h == 12 then 0 else h)
    some (h24, m)

/-- Format "h:mm A": meridiem separated by a single space. -/
def parse12Sp (l : List Char) : Option (Nat × Nat) :=
  take2or1 l fun h l =>
    match l with
    | ':' :: l =>
      take2 l fun m l =>
        match l with
        | ' ' :: l => (meridiemFull l).bind fun isPM => from12 h m isPM
        | _ => none
    | _ => none

/-- Format "h:mma": meridiem attached directly. -/
def parse12Ns (l : List Char) : Option (Nat × Nat) :=
  take2or1 l fun h l =>
    match l with
    | ':' :: l =>
      take2 l fun m l => (meridiemFull l).bind fun isPM => from12 h m isPM
    | _ => none

/-- Strict multi-format time parse, trying the four formats in source
order; models `moment(text, ["HH:mm", "H:mm", "h:mm A", "h:mma"],
true)`. -/
def parseTimeStrict (l : List Char) : Option (Nat × Nat) :=
  match parse24 l with
  | some v => some v
  | none =>
    match parse12Sp l with
    | some v => some v
    | none => parse12Ns l

/-- Character class a strict time parse can consume: digits, the colon
separator, the meridiem space and the meridiem letters and dots. -/
def timeChar (c : Char) : Bool :=
  c.isDigit || c == ':' || c == ' ' || c == '.' ||
    c == 'a' || c == 'A' || c == 'p' || c == 'P' || c == 'm' || c == 'M'

/-- The timestamp the guided flow assigns to a parsed wall-clock time:
today at that time, rolled forward by exactly one day when that moment
has already passed. -/
def timeRoll (now : Date) (hh mm : Nat) : Date :=
  let rt0 : Date := ⟨now.year, now.month, now.day, hh, mm⟩
  if Date.before rt0 now then rt0.addOneDay else rt0

/-! ### Webhook handler (src/index.ts)

Process-local conversational state plus the persistent store.  The
handler's collaborators appear in `Env`: the resolved user (`none`
when `getOrCreateUserFromTwilio` throws), the Gemini parse result
(`nlpThrows` models the call itself throwing), and `dbOk`, true when
the Prisma operations of this request succeed.  `sends` records each
call of the send helper as a `(to, body)` pair; the helper itself
swallows Twilio failures, so they never alter control flow. -/

/-- Stage of the guided (step-by-step) reminder session. -/
inductive SessionStage where
  | awaiting_message
  | awaiting_time
deriving DecidableEq, Repr

/-- Per-address guided-flow session state. -/
structure SessionState where
  stage : SessionStage
  message : Option String
deriving DecidableEq, Repr

/-- Process-local state of the bot: the two in-memory session maps and
the persistent store. -/
structure ChatState where
  sessions : List (String × SessionState)
  weatherCitySessions : List String
  db : DB
deriving DecidableEq, Repr

/-- Result of handling one inbound webhook request: new state, the
outbound send attempts, and the HTTP status of the response. -/
structure HandlerResult where
  state : ChatState
  sends : List Send
  status : Nat
deriving DecidableEq, Repr

/-- Gemini parse result (`ParsedReminder` in the source); `confidence`
is the 0-to-1 score as a rational. -/
structure ParsedReminder where
  intent : String
  reminderMessage : Option String
  datetimeISO : Option Date
  confidence : Rat
deriving DecidableEq, Repr

/-- Collaborator outcomes for one inbound request. -/
structure Env where
  now : Date
  userResolved : Option User
  nlpThrows : Bool
  nlpResult : Option ParsedReminder
  dbOk : Bool

/-- Look up the session of an address. -/
def lookupSession (l : List (String × SessionState)) (k : String) : Option SessionState :=
  (l.find? (fun p => p.1 == k)).map Prod.snd

/-- Write the session of an address. -/
def setSession (l : List (String × SessionState)) (k : String) (v : SessionState) :
    List (String × SessionState) :=
  (k, v) :: l.filter (fun p => p.1 != k)

/-- Delete the session of an address. -/
def deleteSession (l : List (String × SessionState)) (k : String) :
    List (String × SessionState) :=
  l.filter (fun p => p.1 != k)

/-- Respond with a single outbound message and the empty-TwiML 200. -/
def respond (st : ChatState) (dest body : String) : HandlerResult :=
  ⟨st, [(dest, body)], 200⟩

/-- JS truthiness of an optional string (null and "" are falsy). -/
def strTruthy : Option String → Bool
  | some s => s != ""
  | none => false

/-- Name suffix used in confirmations: `user.profileName ? ", " + name
: ""`. -/
def nameSuffix (p : Option String) : String :=
  match p with
  | some n => if n == "" then "" else ", " ++ n
  | none => ""

/-- Help text (`HELP_MESSAGE`). -/
def HELP_MESSAGE : String :=
  "I am Broly, your WhatsApp reminder buddy.\n\nCommands / usage:\n• \"hi\" - start guided step-by-step reminder setup (works for all users)\n• Natural: \"remind me to call mom at 5pm\"\n• \"list\" - show active reminders/subscriptions\n• \"cancel <id>\" or \"cancel recurring <id>\"\n• \"subscribe weather <city>\" or \"subscribe weather\"\n• \"cancel weather\" / \"unsubscribe weather\"\n\nSnooze:\n• \"snooze 10 minutes\" or \"snooze 1 hour\""

/-- Welcome text (`buildWelcomeMessage`). -/
def buildWelcomeMessage (p : Option String) : String :=
  let who := match p with
    | some n => if n == "" then "" else " " ++ n
    | none => ""
  "Hey" ++ who ++ "! I am Broly, your reminder assistant.\n" ++
  "I can help you create quick reminders or guide you step-by-step.\n\n" ++
  "Try natural language: \"remind me to submit assignment at 11pm today\"\n" ++
  "Or send \"hi\" to create a reminder interactively.\n" ++
  "Type \"help\" anytime to see all features."

/-- Exact greeting match against hi/hello/hey on the lowercased text. -/
def isGreetingL (lower : List Char) : Bool :=
  lower == "hi".toList || lower == "hello".toList || lower == "hey".toList

/-- Exact help/menu match. -/
def isHelpL (lower : List Char) : Bool :=
  lower == "help".toList || lower == "menu".toList

/-- Exact list command match. -/
def isListL (lower : List Char) : Bool :=
  lower == "list".toList || lower == "list reminders".toList

/-- Reminder-shaped text: contains "remind" or "reminder". -/
def looksLikeReminderL (lower : List Char) : Bool :=
  containsSub lower "remind".toList || containsSub lower "reminder".toList

/-- Exact cancel-weather command match. -/
def isCancelWeatherL (lower : List Char) : Bool :=
  lower == "cancel weather".toList || lower == "unsubscribe weather".toList

/-- One-time creation transaction: persist the reminder and increment
the owner's `reminderCount` in one `prisma.$transaction` — both apply
or, when the transaction throws, neither does. -/
def createOneTimeTxn (dbOk : Bool) (db : DB) (uid : Nat) (time : Date) (msg : String) : DB :=
  if dbOk then
    { db with
      reminders := db.reminders ++ [⟨db.nextReminderId, uid, msg, time⟩],
      nextReminderId := db.nextReminderId + 1,
      users := db.users.map (fun u =>
        if u.id == uid then { u with reminderCount := u.reminderCount + 1 } else u) }
  else db

/-- Recurring creation transaction, with the same atomicity contract. -/
def createRecurringTxn (dbOk : Bool) (db : DB) (uid : Nat) (msg : String)
    (rtype : RecurrenceType) (timeOfDay : String) (dayOfMonth : Option Nat) : DB :=
  if dbOk then
    { db with
      recurring := db.recurring ++
        [⟨db.nextRecurringId, uid, msg, rtype, timeOfDay, dayOfMonth, true, none⟩],
      nextRecurringId := db.nextRecurringId + 1,
      users := db.users.map (fun u =>
        if u.id == uid then { u with reminderCount := u.reminderCount + 1 } else u) }
  else db

/-- Bare reminder insert used by the snooze path (`prisma.reminder
.create` outside any transaction, with no counter update). -/
def createReminderOnly (dbOk : Bool) (db : DB) (uid : Nat) (time : Date) (msg : String) : DB :=
  if dbOk then
    { db with
      reminders := db.reminders ++ [⟨db.nextReminderId, uid, msg, time⟩],
      nextReminderId := db.nextReminderId + 1 }
  else db

/-- Weather-subscription upsert by user: update city and reactivate, or
create. -/
def upsertWeatherCity (db : DB) (uid : Nat) (city : String) : DB :=
  match db.weatherSubs.find? (fun s => s.userId == uid) with
  | some _ =>
    { db with weatherSubs := db.weatherSubs.map (fun s =>
        if s.userId == uid then { s with city := city, active := true } else s) }
  | none =>
    { db with
      weatherSubs := db.weatherSubs ++ [⟨db.nextWeatherSubId, uid, city, true, none⟩],
      nextWeatherSubId := db.nextWeatherSubId + 1 }

/-- Set a user's weather subscription active flag. -/
def setWeatherActive (db : DB) (uid : Nat) (b : Bool) : DB :=
  { db with weatherSubs := db.weatherSubs.map (fun s =>
      if s.userId == uid then { s with active := b } else s) }

/-- Deactivate the recurring reminder with the given id. -/
def deactivateRecurring (db : DB) (rid : Nat) : DB :=
  { db with recurring := db.recurring.map (fun rr =>
      if rr.id == rid then { rr with active := false } else rr) }

/-- Delete the one-time reminder with the given id. -/
def deleteReminder (db : DB) (rid : Nat) : DB :=
  { db with reminders := db.reminders.filter (fun r => r.id != rid) }

/-- Snooze unit synonym table (`SNOOZE_UNIT_MAP`); true means minute. -/
def snoozeUnitLookup (s : List Char) : Option Bool :=
  if s == "min".toList || s == "mins".toList || s == "minute".toList ||
      s == "minutes".toList || s == "m".toList then some true
  else if s == "h".toList || s == "hr".toList || s == "hrs".toList ||
      s == "hour".toList || s == "hours".toList then some false
  else none

/-- JS `Number` restricted to non-empty decimal digit strings (the
handler only ever feeds it whitespace-delimited tokens; fractional
amounts are not modelled). -/
def jsNumberNat (s : List Char) : Option Nat :=
  if !s.isEmpty && s.all Char.isDigit then some (digitsToNat s) else none

/-- Join tokens with single spaces (`rawUnitTokens.join(" ")`). -/
def joinSpace (ts : List (List Char)) : List Char :=
  (ts.intersperse [' ']).flatten

/-- Parse snooze arguments; models `parseSnoozeArgs`, returning
(offset in minutes, amount, is-minute-unit). -/
def parseSnoozeArgs (tokens : List (List Char)) : Option (Nat × Nat × Bool) :=
  if tokens.length < 2 then none
  else
    match tokens with
    | [] => none
    | rawAmount :: rawUnitTokens =>
      match jsNumberNat rawAmount with
      | none => none
      | some amount =>
        if amount == 0 then none
        else
          match snoozeUnitLookup (joinSpace rawUnitTokens) with
          | none => none
          | some isMin => some (if isMin then amount else amount * 60, amount, isMin)

/-- Snooze command handler (`handleSnoozeCommand`): parse the duration,
require a remembered last reminder, and insert a bare reminder at
`now + offset` (no transaction, no counter update). -/
def handleSnoozeCommand (dbOk : Bool) (now : Date) (db : DB) (user : User)
    (restTokens : List (List Char)) (sender : String) : DB × List Send :=
  if restTokens.isEmpty then
    (db, [(sender, "Please specify how long to snooze. Example: \"snooze 10 minutes\" or \"snooze 1 hour\".")])
  else
    match parseSnoozeArgs restTokens with
    | none =>
      (db, [(sender, "I could not understand that snooze duration. Try \"snooze 10 minutes\" or \"snooze 2 hours\".")])
    | some (offsetMin, amount, isMin) =>
      if !strTruthy user.lastReminderMessage || user.lastReminderTime.isNone then
        (db, [(sender, "I don\x27t have a recent reminder to snooze. Create a reminder first, then try snoozing.")])
      else
        let lastMsg := user.lastReminderMessage.getD ""
        let snoozedTime := Date.addMinutes now offsetMin
        if dbOk then
          let unitLabel := if isMin then "minute" else "hour"
          let amountWithUnit :=
            if amount == 1 then toString amount ++ " " ++ unitLabel
            else toString amount ++ " " ++ unitLabel ++ "s"
          (createReminderOnly true db user.id snoozedTime lastMsg,
           [(sender, "Got it! I\x27ll remind you again in " ++ amountWithUnit ++
             " about: \"" ++ lastMsg ++ "\".")])
        else
          (db, [(sender, "Something went wrong while setting your snooze. Please try again in a moment.")])

/-- Listing text for the list command.  The source orders one-time rows
by time and recurring rows by id; the ordering of the listing lines is
not load-bearing here and stored order is kept. -/
def buildListMessage (oneTime : List Reminder) (recurring : List RecurringReminder)
    (weatherSub : Option WeatherSubscription) : String :=
  let lines : List String := ["Here are your active reminders and subscriptions:"]
  let lines := lines ++
    (if oneTime.isEmpty then []
     else ["", "One-time reminders:"] ++ oneTime.map (fun r =>
       "- [" ++ toString r.id ++ "] \"" ++ r.message ++ "\" at " ++ formatDate r.time))
  let lines := lines ++
    (if recurring.isEmpty then []
     else ["", "Recurring reminders:"] ++ recurring.map (fun rr =>
       match rr.recurrenceType with
       | RecurrenceType.DAILY =>
         "- [" ++ toString rr.id ++ "] DAILY at " ++ rr.timeOfDay ++ ": \"" ++ rr.message ++ "\""
       | RecurrenceType.MONTHLY =>
         "- [" ++ toString rr.id ++ "] MONTHLY on day " ++
           (match rr.dayOfMonth with
            | some d => toString d
            | none => "null") ++ " at " ++ rr.timeOfDay ++ ": \"" ++ rr.message ++ "\""))
  let lines := lines ++
    (match weatherSub with
     | some w =>
       if w.active then
         ["", "Weather subscription: daily at 09:00 for city \"" ++ w.city ++ "\"."]
       else []
     | none => [])
  let lines := lines ++
    ["", "To cancel, send \"cancel <id>\", \"cancel recurring <id>\", or \"cancel weather\"."]
  String.intercalate "\n" lines

/-- List command branch. -/
def listBranch (env : Env) (st : ChatState) (user : User) (sender : String) : HandlerResult :=
  if env.dbOk then
    let oneTime := st.db.reminders.filter (fun r =>
      r.userId == user.id && Date.before env.now r.time)
    let recurring := st.db.recurring.filter (fun rr => rr.userId == user.id && rr.active)
    let weatherSub := st.db.weatherSubs.find? (fun s => s.userId == user.id)
    if oneTime.isEmpty && recurring.isEmpty &&
        !(match weatherSub with
          | some w => w.active
          | none => false) then
      respond st sender "You do not have any active reminders or weather subscriptions right now."
    else
      respond st sender (buildListMessage oneTime recurring weatherSub)
  else
    respond st sender "There was an error listing your reminders."

/-- Fallback text for experienced users. -/
def experiencedFallback (p : Option String) : String :=
  "I could not figure out a reminder sender that, " ++
    (match p with
     | some n => if n == "" then "friend" else n
     | none => "friend") ++ ".\n" ++
  "Try something like:\n" ++
  "• \"remind me to submit assignment at 11pm today\"\n" ++
  "• \"remind me to call mom tomorrow at 9am\"\n" ++
  "• \"remind me to pay rent on 5th of every month at 9 am\"\n" ++
  "• \"subscribe weather Mumbai\"\n" ++
  "Or type \"help\" to see all options."

/-- Final generic fallback text. -/
def genericFallback : String :=
  "I did not quite understand that.\nYou can:\n" ++
  "- Say \"hi\" to start a step-by-step reminder for today\n" ++
  "- Or say something like \"remind me to drink water at 5pm tomorrow\"\n" ++
  "- Or type \"help\" to see what I can do."

/-- Guided-flow tail of the handler: greeting starts a session for any
user; an open session consumes the message (any text as the pending
reminder, then a strict time parse that sets today's date and rolls to
tomorrow when already past); otherwise the experienced/generic
fallback.  On a valid time the session is destroyed whether or not the
creation transaction succeeds. -/
def guidedPart (env : Env) (st : ChatState) (user : User) (sender : String)
    (text lower : List Char) (session : Option SessionState) : HandlerResult :=
  if isGreetingL lower then
    ⟨⟨setSession st.sessions sender ⟨SessionStage.awaiting_message, none⟩,
      st.weatherCitySessions, st.db⟩,
     [(sender, buildWelcomeMessage user.profileName)], 200⟩
  else
    match session with
    | some s =>
      match s.stage with
      | SessionStage.awaiting_message =>
        ⟨⟨setSession st.sessions sender ⟨SessionStage.awaiting_time, some text.asString⟩,
          st.weatherCitySessions, st.db⟩,
         [(sender,
           "Noted. Now tell me what time today you want this reminder.\nExamples: \"9:36AM\", \"9:36 PM\", or \"14:56\".")],
         200⟩
      | SessionStage.awaiting_time =>
        let reminderText := s.message.getD ""
        match parseTimeStrict text with
        | none =>
          respond st sender
            "I could not understand that time. Please send something like \"9:36AM\" or \"14:56\" (today only)."
        | some (h, m) =>
          let rt0 : Date := ⟨env.now.year, env.now.month, env.now.day, h, m⟩
          let rt := if Date.before rt0 env.now then rt0.addOneDay else rt0
          if env.dbOk then
            ⟨⟨deleteSession st.sessions sender, st.weatherCitySessions,
              createOneTimeTxn true st.db user.id rt reminderText⟩,
             [(sender, "All set" ++ nameSuffix user.profileName ++ ". I will remind you: \"" ++
               reminderText ++ "\" at " ++ formatDate rt ++ ".")], 200⟩
          else
            ⟨⟨deleteSession st.sessions sender, st.weatherCitySessions, st.db⟩,
             [(sender, "I understood your reminder, but could not save it due to a database error.")],
             200⟩
    | none =>
      if decide (0 < user.reminderCount) then
        respond st sender (experiencedFallback user.profileName)
      else
        respond st sender genericFallback

/-- Relative-time fallback inside the NLP branch: on a match, create in
one transaction; a throwing transaction is caught by the outer NLP
try/catch and control falls through to the guided part. -/
def nlpRelativeFallback (env : Env) (st : ChatState) (user : User) (sender : String)
    (text lower : List Char) (session : Option SessionState) : HandlerResult :=
  match parseSimpleRelativeReminder env.now text.asString with
  | some r =>
    if env.dbOk then
      respond { st with db := createOneTimeTxn true st.db user.id r.datetime r.reminderMessage }
        sender ("Got it" ++ nameSuffix user.profileName ++ ". I will remind you: \"" ++
          r.reminderMessage ++ "\" at " ++ formatDate r.datetime ++ ".")
    else guidedPart env st user sender text lower session
  | none => guidedPart env st user sender text lower session

/-- Confident NLP create: recurrence keywords decide between a
recurring record (time of day taken sender the parsed timestamp, monthly
preferred over daily) and a one-time record.  A throwing transaction is
caught by the outer try/catch and control falls through. -/
def nlpConfidentCreate (env : Env) (st : ChatState) (user : User) (sender : String)
    (text lower : List Char) (session : Option SessionState)
    (dt : Date) (rmsg : String) : HandlerResult :=
  let recursMonthly := containsSub lower "every month".toList ||
    containsSub lower "each month".toList || containsSub lower "monthly".toList
  let recursDaily := containsSub lower "every day".toList ||
    containsSub lower "everyday".toList || containsSub lower "daily".toList
  if recursMonthly || recursDaily then
    let timeOfDay := pad2 dt.hour ++ ":" ++ pad2 dt.minute
    let dayOfMonth : Option Nat := if recursMonthly then some dt.day else none
    if env.dbOk then
      let rtype := if recursMonthly then RecurrenceType.MONTHLY else RecurrenceType.DAILY
      respond { st with db := createRecurringTxn true st.db user.id rmsg rtype timeOfDay dayOfMonth }
        sender
        (if recursMonthly then
          "Got it" ++ nameSuffix user.profileName ++ ". I will remind you every month on day " ++
            (match dayOfMonth with
             | some d => toString d
             | none => "null") ++ " at " ++ timeOfDay ++ " to \"" ++ rmsg ++ "\"."
        else
          "Got it" ++ nameSuffix user.profileName ++ ". I will remind you every day at " ++
            timeOfDay ++ " to \"" ++ rmsg ++ "\".")
    else guidedPart env st user sender text lower session
  else
    if env.dbOk then
      respond { st with db := createOneTimeTxn true st.db user.id dt rmsg }
        sender ("Got it" ++ nameSuffix user.profileName ++ ". I will remind you: \"" ++ rmsg ++
          "\" at " ++ formatDate dt ++ ".")
    else guidedPart env st user sender text lower session

/-- NLP-first attempt: runs when the text looks reminder-shaped, no
session is open or the user is experienced, and help was not asked.  A
throwing Gemini call skips the relative fallback (the whole flow sits
in one try/catch) and falls through to the guided part. -/
def nlpPart (env : Env) (st : ChatState) (user : User) (sender : String)
    (text lower : List Char) (session : Option SessionState) : HandlerResult :=
  let shouldTryNLPFirst := !isHelpL lower &&
    (session.isNone || decide (0 < user.reminderCount)) && looksLikeReminderL lower
  if shouldTryNLPFirst then
    if env.nlpThrows then guidedPart env st user sender text lower session
    else
      match env.nlpResult with
      | some p =>
        match p.datetimeISO, p.reminderMessage with
        | some dt, some rmsg =>
          if p.intent == "create_reminder" && rmsg != "" && decide ((6 : Rat)/10 ≤ p.confidence) then
            nlpConfidentCreate env st user sender text lower session dt rmsg
          else nlpRelativeFallback env st user sender text lower session
        | _, _ => nlpRelativeFallback env st user sender text lower session
      | none => nlpRelativeFallback env st user sender text lower session
  else guidedPart env st user sender text lower session

/-- Command cascade of the handler, in source order: snooze, weather
subscribe (with city, then bare), weather cancel, cancel recurring,
cancel one-time, help, list, then the NLP-first attempt and the guided
part. -/
def commandPart (env : Env) (st : ChatState) (user : User) (sender : String)
    (text lower : List Char) (tokens : List (List Char))
    (session : Option SessionState) : HandlerResult :=
  if (tokens.headD []) == "snooze".toList then
    let (db', sends) := handleSnoozeCommand env.dbOk env.now st.db user tokens.tail sender
    ⟨⟨st.sessions, st.weatherCitySessions, db'⟩, sends, 200⟩
  else
    match matchSubscribeCity text with
    | some cityL =>
      let city := (jsTrimL cityL).asString
      if env.dbOk then
        respond { st with db := upsertWeatherCity st.db user.id city } sender
          ("Subscribed to daily weather updates at 9am for " ++ city ++ ".")
      else
        respond st sender "There was an error setting up your weather subscription."
    | none =>
      if isSubscribeWeatherBare text then
        if env.dbOk then
          match st.db.weatherSubs.find? (fun s => s.userId == user.id) with
          | some existing =>
            if existing.city != "" && existing.active then
              respond st sender ("You are already subscribed to daily weather updates for " ++
                existing.city ++ " at 9am.")
            else if existing.city != "" then
              respond { st with db := setWeatherActive st.db user.id true } sender
                ("Your daily weather updates for " ++ existing.city ++ " have been (re)activated.")
            else
              ⟨⟨st.sessions, sender :: st.weatherCitySessions.filter (fun x => x != sender), st.db⟩,
               [(sender,
                 "Which city should I use for your daily weather updates? Send the city name, for example: \"Mumbai\".")],
               200⟩
          | none =>
            ⟨⟨st.sessions, sender :: st.weatherCitySessions.filter (fun x => x != sender), st.db⟩,
             [(sender,
               "Which city should I use for your daily weather updates? Send the city name, for example: \"Mumbai\".")],
             200⟩
        else
          respond st sender "There was an error handling your weather subscription request."
      else if isCancelWeatherL lower then
        if env.dbOk then
          match st.db.weatherSubs.find? (fun s => s.userId == user.id) with
          | some existing =>
            if existing.active then
              respond { st with db := setWeatherActive st.db user.id false } sender
                ("Your daily weather updates for " ++ existing.city ++ " have been canceled.")
            else
              respond st sender "You do not have an active weather subscription to cancel."
          | none =>
            respond st sender "You do not have an active weather subscription to cancel."
        else
          respond st sender "There was an error canceling your weather subscription."
      else
        match matchCancelRecurring lower with
        | some rid =>
          if env.dbOk then
            match st.db.recurring.find? (fun rr =>
                rr.id == rid && rr.userId == user.id && rr.active) with
            | none =>
              respond st sender ("I could not find an active recurring reminder with id " ++
                toString rid ++ " for you.")
            | some rr =>
              respond { st with db := deactivateRecurring st.db rr.id } sender
                ("Recurring reminder " ++ toString rid ++ " canceled: \"" ++ rr.message ++ "\".")
          else
            respond st sender "There was an error canceling that recurring reminder."
        | none =>
          match matchCancelOneTime lower with
          | some rid =>
            if env.dbOk then
              match st.db.reminders.find? (fun r => r.id == rid && r.userId == user.id) with
              | none =>
                respond st sender ("I could not find a one-time reminder with id " ++
                  toString rid ++ " for you.")
              | some r =>
                respond { st with db := deleteReminder st.db r.id } sender
                  ("One-time reminder " ++ toString rid ++ " canceled: \"" ++ r.message ++ "\".")
            else
              respond st sender "There was an error canceling that reminder."
          | none =>
            if isHelpL lower then respond st sender HELP_MESSAGE
            else if isListL lower then listBranch env st user sender
            else nlpPart env st user sender text lower session

/-- Weather-city prompt branch: the whole message is consumed as the
city; the prompt flag is cleared before anything else. -/
def weatherCityBranch (env : Env) (st : ChatState) (user : User) (sender : String)
    (text : List Char) : HandlerResult :=
  let st' : ChatState :=
    ⟨st.sessions, st.weatherCitySessions.filter (fun x => x != sender), st.db⟩
  let city := (jsTrimL text).asString
  if city == "" then
    respond st' sender
      "I did not catch a city name. Please send something like \"Mumbai\" or \"Bangalore\"."
  else if env.dbOk then
    respond { st' with db := upsertWeatherCity st'.db user.id city } sender
      ("Subscribed to daily weather updates at 9am for " ++ city ++ ".")
  else
    respond st' sender "There was an error setting up your weather subscription."

/-- One inbound webhook request (`app.post("/whatsapp", ...)`): missing
`From`/`Body` is a 400; a throwing user resolution is a 500 with no
outbound message; otherwise the command cascade runs and answers with
exactly one outbound message. -/
def handlePost (env : Env) (st : ChatState) (fromQ bodyQ : Option String) : HandlerResult :=
  match fromQ, bodyQ with
  | some sender, some rawBody =>
    if sender == "" || rawBody == "" then ⟨st, [], 400⟩
    else
      match env.userResolved with
      | none => ⟨st, [], 500⟩
      | some user =>
        let text := jsTrimL rawBody.toList
        let lower := lowerL text
        let session := lookupSession st.sessions sender
        let tokens := jsSplitWs lower
        if st.weatherCitySessions.contains sender then
          weatherCityBranch env st user sender text
        else
          commandPart env st user sender text lower tokens session
  | _, _ => ⟨st, [], 400⟩

/-! ### Derived per-item sweep effects

Each sweep's per-item decision depends only on the snapshot row, the
(unchanged) user table and the oracles, so the whole sweep is a filter
or map over the table.  The following predicates name those
decisions. -/

/-- The one-time sweep deletes a due row exactly when its owner exists
and the send did not throw (a send only happens when configured). -/
def oneTimeDeletes (cfg : Bool) (sendFails : Nat → Bool) (users : List User)
    (r : Reminder) : Bool :=
  (findUser users r.userId).isSome && !(cfg && sendFails r.id)

/-- The recurring sweep stamps `lastTriggeredAt` on a snapshot row
exactly when its owner exists, it fires, and the send did not throw. -/
def recurringUpdates (cfg : Bool) (sendFails : Nat → Bool) (users : List User)
    (now : Date) (rr : RecurringReminder) : Bool :=
  (findUser users rr.userId).isSome && recurringFires now rr && !(cfg && sendFails rr.id)

/-- The weather sweep's due test for a subscription: not yet served on
`now`'s calendar day. -/
def weatherDue (now : Date) (sub : WeatherSubscription) : Bool :=
  !(match sub.lastSentAt with
    | some last => isSameDay now last
    | none => false)

/-- The weather sweep stamps `lastSentAt` on a snapshot row exactly
when its owner exists, it is due, the summary is non-null, and the send
did not throw. -/
def weatherUpdates (cfg : Bool) (sendFails : Nat → Bool) (apiKey : Bool)
    (weather : String → FetchOutcome) (users : List User) (now : Date)
    (sub : WeatherSubscription) : Bool :=
  (findUser users sub.userId).isSome && weatherDue now sub &&
    (fetchWeatherSummary apiKey (weather sub.city) sub.city).isSome &&
    !(cfg && sendFails sub.id)

/-- Remove the first case-insensitive occurrence of `pat` from `l`. -/
def removeFirstSubCI : List Char → List Char → Option (List Char)
  | l, pat =>
    if beginsWithCI l pat then some (l.drop pat.length)
    else
      match l with
      | [] => none
      | c :: rest => (removeFirstSubCI rest pat).map (fun r => c :: r)

/-- Replace the first case-insensitive occurrence of `pat` in `l` by
nothing, leaving `l` unchanged when `pat` does not occur. -/
def replaceFirstSubCI (l pat : List Char) : List Char :=
  (removeFirstSubCI l pat).getD l

/-- Modelled from the spec: the cleaned message the specification
describes for the relative-time fallback — "a message equal to the text
with the matched duration phrase, the word today, and a leading remind
me to / remind me stripped; if stripping yields an empty string, the
original trimmed text is used verbatim".  The duration phrase (matched
case-insensitively) is removed case-insensitively here, which is where
this differs from the code. -/
def specCleanMessage (text : String) : String :=
  match searchRel (lowerL text.toList) with
  | none => jsTrim text
  | some m =>
    let cleaned := replaceFirstSubCI text.toList m.match0
    let cleaned := removeTodayFrom false cleaned
    let cleaned := stripLeadCI cleaned "remind me to".toList
    let cleaned := stripLeadCI cleaned "remind me".toList
    let cleaned := jsTrimL cleaned
    let cleaned := if cleaned.isEmpty then jsTrimL text.toList else cleaned
    cleaned.asString

/-! ### Concrete fixtures for end-to-end handler runs -/

/-- A fresh user with no prior reminders. -/
def demoUser : User := ⟨1, "w", none, 0, none, none⟩

/-- A request environment: user resolution succeeds, Gemini returns
nothing, the database works, at 08:00 on 2026-01-05. -/
def demoEnv : Env := ⟨⟨2026, 1, 5, 8, 0⟩, some demoUser, false, none, true⟩

/-- A fresh chat state over a store holding only the demo user. -/
def demoState : ChatState := ⟨[], [], ⟨[demoUser], [], [], [], 1, 1, 1⟩⟩

/-- One inbound message from the demo sender, returning the new state. -/
def demoStep (st : ChatState) (body : String) : ChatState :=
  (handlePost demoEnv st (some "u1") (some body)).state

/-! ## Theorems -/

/-- Lowercasing fixes decimal digits. -/
theorem toLower_of_isDigit (c : Char) (h : c.isDigit = true) : c.toLower = c := by
  simp only [Char.isDigit, decide_eq_true_eq, Bool.and_eq_true, ge_iff_le] at h
  obtain ⟨hl, hr⟩ := h
  have hl' : 48 ≤ c.val.toNat := hl
  have hr' : c.val.toNat ≤ 57 := hr
  unfold Char.toLower
  rw [if_neg]
  rintro ⟨h1, h2⟩
  simp only [Char.toNat] at h1 h2
  omega

/-- Lowercasing fixes the whitespace characters. -/
theorem toLower_of_isWS (c : Char) (h : isWS c = true) : c.toLower = c := by
  simp only [isWS, Bool.or_eq_true, beq_iff_eq] at h
  rcases h with ((h | h) | h) | h <;> subst h <;> decide

/-- A list fixed by lowercasing is fixed pointwise. -/
theorem lower_fixed_mem : ∀ {l : List Char}, lowerL l = l →
    ∀ c ∈ l, Char.toLower c = c := by
  intro l
  induction l with
  | nil => intro _ c hc; cases hc
  | cons a as ih =>
    intro h c hc
    simp only [lowerL, List.map_cons, List.cons.injEq] at h
    rcases hc with _ | hc
    · exact h.1
    · exact ih h.2 c (by assumption)

/-- A successful unit match returns one of the offered alternatives. -/
theorem matchUnit_mem (l : List Char) :
    ∀ (alts : List (List Char × Bool)) (alt : List Char) (b : Bool) (rest : List Char),
    matchUnit l alts = some (alt, b, rest) → (alt, b) ∈ alts := by
  intro alts
  induction alts with
  | nil => intro alt b rest h; simp [matchUnit] at h
  | cons p alts ih =>
    obtain ⟨pa, pb⟩ := p
    intro alt b rest h
    rw [matchUnit] at h
    cases hd : dropLit l pa with
    | none =>
      rw [hd] at h
      exact List.mem_cons_of_mem _ (ih alt b rest h)
    | some l' =>
      simp only [hd] at h
      by_cases hb : boundaryAt l'
      · rw [if_pos hb] at h
        simp only [Option.some.injEq, Prod.mk.injEq] at h
        obtain ⟨h1, h2, -⟩ := h
        subst h1
        subst h2
        exact List.mem_cons_self _ _
      · rw [if_neg hb] at h
        exact List.mem_cons_of_mem _ (ih alt b rest h)

/-- Every character of a relative-time match is fixed by lowercasing:
the literal pieces are lowercase and the captured pieces are whitespace
or digits. -/
theorem matchRelAt_match0_fixed (l : List Char) (m : RelMatch)
    (h : matchRelAt l = some m) : ∀ c ∈ m.match0, Char.toLower c = c := by
  unfold matchRelAt at h
  cases hd : dropLit l "in".toList with
  | none => rw [hd] at h; simp at h
  | some l1 =>
    rw [hd] at h
    simp only [Option.some_bind] at h
    cases l1 with
    | nil => simp at h
    | cons c0 l2 =>
      by_cases hws : isWS c0
      · simp only [hws, if_true, takeDigits] at h
        by_cases hds : (l2.dropWhile isWS).takeWhile Char.isDigit = []
        · simp [hds] at h
        · rw [if_neg (by simpa using hds)] at h
          cases hmu : matchUnit (((l2.dropWhile isWS).dropWhile Char.isDigit).dropWhile isWS)
              relUnitAlts with
          | none => rw [hmu] at h; simp at h
          | some r =>
            obtain ⟨alt, isMin, rest⟩ := r
            rw [hmu] at h
            simp only [Option.some.injEq] at h
            subst h
            intro c hc
            have hin : ∀ x ∈ "in".toList, Char.toLower x = x := by decide
            have halt : ∀ x ∈ alt, Char.toLower x = x := by
              have hmem := matchUnit_mem _ relUnitAlts alt isMin rest hmu
              have hall : ∀ p ∈ relUnitAlts, ∀ x ∈ p.1, Char.toLower x = x := by decide
              exact fun x hx => hall (alt, isMin) hmem x hx
            simp only [List.mem_append, List.cons_append, List.mem_cons] at hc
            rcases hc with (((hc | rfl | hc) | hc) | hc) | hc
            · exact hin c hc
            · exact toLower_of_isWS _ hws
            · exact toLower_of_isWS _ (List.mem_takeWhile_imp hc)
            · exact toLower_of_isDigit _ (List.mem_takeWhile_imp hc)
            · exact toLower_of_isWS _ (List.mem_takeWhile_imp hc)
            · exact halt c hc
      · have hws' : isWS c0 = false := by simpa using hws
        simp only [hws', Bool.false_eq_true, if_false] at h
        exact absurd h (by simp)

/-- A relative-time match found anywhere in the text has all its
characters fixed by lowercasing. -/
theorem searchRel_match0_fixed : ∀ (l : List Char) (m : RelMatch),
    searchRel l = some m → ∀ c ∈ m.match0, Char.toLower c = c := by
  intro l
  induction l with
  | nil => intro m h; simp [searchRel] at h
  | cons a rest ih =>
    intro m h
    rw [searchRel] at h
    cases hm : matchRelAt (a :: rest) with
    | some m' =>
      rw [hm] at h
      obtain rfl : m' = m := by injection h
      exact matchRelAt_match0_fixed _ _ hm
    | none =>
      rw [hm] at h
      exact ih m h

/-- A successful match at a position starts with the literal "in". -/
theorem matchRelAt_head (l : List Char) (m : RelMatch) (h : matchRelAt l = some m) :
    ∃ rest, l = 'i' :: rest := by
  unfold matchRelAt at h
  have hin : "in".toList = ['i', 'n'] := rfl
  rw [hin] at h
  cases l with
  | nil => simp [dropLit] at h
  | cons c rest =>
    refine ⟨rest, ?_⟩
    rw [dropLit] at h
    by_cases hc : c = 'i'
    · rw [hc]
    · rw [if_neg (by simpa using hc)] at h
      simp at h

/-- A relative-time search that succeeds found an 'i' in the text. -/
theorem searchRel_mem_i : ∀ (l : List Char) (m : RelMatch),
    searchRel l = some m → 'i' ∈ l := by
  intro l
  induction l with
  | nil => intro m h; simp [searchRel] at h
  | cons a rest ih =>
    intro m h
    rw [searchRel] at h
    cases hm : matchRelAt (a :: rest) with
    | some m' =>
      obtain ⟨r, hr⟩ := matchRelAt_head _ _ hm
      obtain rfl : a = 'i' := by injection hr
      exact List.mem_cons_self _ _
    | none =>
      rw [hm] at h
      exact List.mem_cons_of_mem _ (ih m h)

/-- A trim that erases everything means the text was all whitespace. -/
theorem jsTrimL_eq_nil_all_ws (l : List Char) (h : jsTrimL l = []) :
    ∀ c ∈ l, isWS c = true := by
  unfold jsTrimL at h
  rw [List.reverse_eq_nil_iff, List.dropWhile_eq_nil_iff] at h
  intro c hc
  rcases (List.takeWhile_append_dropWhile (p := isWS) (l := l)) ▸ hc with hmem
  rcases List.mem_append.mp hmem with hm | hm
  · exact List.mem_takeWhile_imp hm
  · exact h c (List.mem_reverse.mpr hm)

/-- Case-insensitive prefix test agrees with the case-sensitive one
when both sides are fixed by lowercasing. -/
theorem beginsWithCI_eq_of_fixed : ∀ (l pat : List Char),
    (∀ c ∈ l, Char.toLower c = c) → (∀ p ∈ pat, Char.toLower p = p) →
    beginsWithCI l pat = beginsWith l pat := by
  intro l
  induction l with
  | nil => intro pat _ _; cases pat <;> rfl
  | cons c l ih =>
    intro pat hl hp
    cases pat with
    | nil => rfl
    | cons p pat =>
      rw [beginsWithCI, beginsWith,
        hl c (List.mem_cons_self _ _), hp p (List.mem_cons_self _ _),
        ih pat (fun x hx => hl x (List.mem_cons_of_mem _ hx))
          (fun x hx => hp x (List.mem_cons_of_mem _ hx))]

/-- Case-insensitive first-occurrence removal agrees with the
case-sensitive one when both sides are fixed by lowercasing. -/
theorem removeFirstSubCI_eq_of_fixed : ∀ (l pat : List Char),
    (∀ c ∈ l, Char.toLower c = c) → (∀ p ∈ pat, Char.toLower p = p) →
    removeFirstSubCI l pat = removeFirstSub l pat := by
  intro l
  induction l with
  | nil =>
    intro pat hl hp
    rw [removeFirstSubCI, removeFirstSub, beginsWithCI_eq_of_fixed _ _ hl hp]
  | cons c l ih =>
    intro pat hl hp
    rw [removeFirstSubCI, removeFirstSub, beginsWithCI_eq_of_fixed _ _ hl hp,
      ih pat (fun x hx => hl x (List.mem_cons_of_mem _ hx)) hp]

/-- Chronology helper: if `a ≤ b` and `b` is not on `a`'s calendar day,
then `a`'s calendar day strictly precedes `b`'s. -/
theorem dayLt_of_lte_not_sameDay (a b : Date)
    (h1 : Date.lte a b = true) (h2 : isSameDay b a = false) :
    Date.dayLt a b = true := by
  simp only [Date.lte, Date.before, Date.dayLt, isSameDay, Bool.or_eq_true, beq_iff_eq,
    Bool.and_eq_true, decide_eq_true_eq, Bool.and_eq_false_imp, ne_eq] at *
  rcases h1 with h1 | h1
  · split_ifs at h1 ⊢ <;> simp_all
  · rcases h1 with ⟨hy, hm, hd, _, _⟩
    split_ifs <;> simp_all

/-- C4: a DAILY recurring reminder whose `lastTriggeredAt` falls on the
same calendar day as `now` never fires (however often the tick repeats
within the matching minute), and under a monotone clock a firing
implies `now`'s calendar day strictly follows the last-triggered
day. -/
theorem daily_no_refire_same_day (rr : RecurringReminder) (now last : Date)
    (hty : rr.recurrenceType = RecurrenceType.DAILY)
    (hlast : rr.lastTriggeredAt = some last) :
    (isSameDay now last = true → recurringFires now rr = false) ∧
    (Date.lte last now = true → recurringFires now rr = true →
      Date.dayLt last now = true) := by
  constructor
  · intro hsame
    simp [recurringFires, hty, hlast, hsame]
  · intro hle hfire
    apply dayLt_of_lte_not_sameDay _ _ hle
    simp [recurringFires, hty, hlast] at hfire
    exact hfire.2

/-- Witness for `daily_no_refire_same_day` at a reminder last fired on
2026-10-11 and a tick at 09:00 the next day. -/
theorem daily_no_refire_same_day_witness :
    Date.dayLt ⟨2026, 10, 11, 9, 0⟩ ⟨2026, 10, 12, 9, 0⟩ = true :=
  (daily_no_refire_same_day
    ⟨1, 1, "walk", RecurrenceType.DAILY, "09:00", none, true, some ⟨2026, 10, 11, 9, 0⟩⟩
    ⟨2026, 10, 12, 9, 0⟩ ⟨2026, 10, 11, 9, 0⟩ rfl rfl).2 (by decide) (by decide)

/-- C5: a MONTHLY recurring reminder fires only when `now`'s day of
month equals the record's `dayOfMonth` and `lastTriggeredAt` is null or
in a different year-month; in particular a `dayOfMonth` of 31 never
fires inside a 30-day month. -/
theorem monthly_fire_guard (rr : RecurringReminder) (now : Date)
    (hty : rr.recurrenceType = RecurrenceType.MONTHLY) :
    (recurringFires now rr = true →
      rr.dayOfMonth = some now.day ∧
      (rr.lastTriggeredAt = none ∨
        ∀ last, rr.lastTriggeredAt = some last → isSameYearMonth now last = false)) ∧
    (rr.dayOfMonth = some 31 → now.day ≤ daysInMonth now.year now.month →
      daysInMonth now.year now.month = 30 → recurringFires now rr = false) := by
  constructor
  · intro hfire
    simp only [recurringFires, hty, Bool.and_eq_true] at hfire
    obtain ⟨-, hfire⟩ := hfire
    cases hdom : rr.dayOfMonth with
    | none => rw [hdom] at hfire; simp at hfire
    | some dom =>
      rw [hdom] at hfire
      simp only [Bool.and_eq_true, bne_iff_ne, beq_iff_eq] at hfire
      obtain ⟨⟨-, hdeq⟩, hguard⟩ := hfire
      refine ⟨by rw [hdeq], ?_⟩
      cases hlast : rr.lastTriggeredAt with
      | none => exact Or.inl rfl
      | some last =>
        refine Or.inr fun l hl => ?_
        obtain rfl : last = l := by injection hl
        rw [hlast] at hguard
        simpa using hguard
  · intro hdom hval h30
    simp only [recurringFires, hty, hdom]
    have : ¬(31 = now.day) := by omega
    simp [this]

/-- Characterization of the one-time sweep loop: the surviving rows are
those no due row's successful processing deletes, and the send attempts
are one per due row with an owner (when configured). -/
theorem runOneTime_eq (cfg : Bool) (f : Nat → Bool) (users : List User)
    (due rems : List Reminder) :
    runOneTime cfg f users due rems =
      (rems.filter (fun x =>
        due.all (fun r => !oneTimeDeletes cfg f users r || x.id != r.id)),
       due.filterMap (fun r =>
         match findUser users r.userId with
         | some u => if cfg then some (u.whatsappNumber, "Reminder: " ++ r.message) else none
         | none => none)) := by
  induction due generalizing rems with
  | nil => simp [runOneTime]
  | cons r due ih =>
    rw [runOneTime]
    cases hu : findUser users r.userId with
    | none =>
      have hdelF : oneTimeDeletes cfg f users r = false := by
        simp [oneTimeDeletes, hu]
      simp only [ih, List.filterMap_cons, hu, List.all_cons, hdelF, Bool.not_false,
        Bool.true_or, Bool.true_and]
    | some u =>
      cases cfg with
      | false =>
        have hdelT : oneTimeDeletes false f users r = true := by
          simp [oneTimeDeletes, hu]
        simp only [ih, List.filterMap_cons, hu, Bool.false_eq_true, if_false, ite_false,
          ite_true, List.filter_filter, List.all_cons, hdelT, Bool.not_true, Bool.false_or]
        refine Prod.ext ?_ rfl
        apply List.filter_congr
        intro x _
        exact Bool.and_comm _ _
      | true =>
        cases hf : f r.id with
        | false =>
          have hdelT : oneTimeDeletes true f users r = true := by
            simp [oneTimeDeletes, hu, hf]
          simp only [ih, List.filterMap_cons, hu, hf, Bool.false_eq_true, if_false, ite_false,
            ite_true, List.filter_filter, List.all_cons, hdelT, Bool.not_true, Bool.false_or]
          refine Prod.ext ?_ rfl
          apply List.filter_congr
          intro x _
          exact Bool.and_comm _ _
        | true =>
          have hdelF : oneTimeDeletes true f users r = false := by
            simp [oneTimeDeletes, hu, hf]
          simp only [ih, List.filterMap_cons, hu, hf, ite_true, ite_false, List.all_cons,
            hdelF, Bool.not_false, Bool.true_or, Bool.true_and]

/-- Stamping one id and then mapping the per-tail stamping function is
the same as mapping a combined stamping function: the tail condition
only reads the (preserved) id, and stamping twice with the same instant
is stamping once. -/
theorem map_markTriggered (now : Date) (rid : Nat) (upd : RecurringReminder → Bool)
    (snap rrs : List RecurringReminder) :
    (markTriggered now rid rrs).map (fun x =>
      if snap.any (fun rr => upd rr && rr.id == x.id) then
        { x with lastTriggeredAt := some now }
      else x) =
    rrs.map (fun x =>
      if rid == x.id || snap.any (fun rr => upd rr && rr.id == x.id) then
        { x with lastTriggeredAt := some now }
      else x) := by
  rw [markTriggered, List.map_map]
  refine congrArg (fun g => rrs.map g) (funext fun x => ?_)
  cases x with
  | mk xid xuser xmsg xty xtod xdom xact xlast =>
    by_cases hx : xid = rid
    · subst hx
      simp
    · simp [hx, Ne.symm hx]

/-- Characterization of the recurring sweep loop: a row gets
`lastTriggeredAt := now` exactly when some snapshot row with its id has
an owner, fires, and its send did not throw; sends are one per firing
snapshot row with an owner (when configured). -/
theorem runRecurring_eq (cfg : Bool) (f : Nat → Bool) (users : List User) (now : Date)
    (snap rrs : List RecurringReminder) :
    runRecurring cfg f users now snap rrs =
      (rrs.map (fun x =>
        if snap.any (fun rr => recurringUpdates cfg f users now rr && rr.id == x.id) then
          { x with lastTriggeredAt := some now }
        else x),
       snap.filterMap (fun rr =>
         match findUser users rr.userId with
         | some u =>
           if recurringFires now rr && cfg then
             some (u.whatsappNumber, "Recurring reminder: " ++ rr.message)
           else none
         | none => none)) := by
  induction snap generalizing rrs with
  | nil => simp [runRecurring]
  | cons rr snap ih =>
    rw [runRecurring]
    cases hu : findUser users rr.userId with
    | none =>
      have hupdF : recurringUpdates cfg f users now rr = false := by
        simp [recurringUpdates, hu]
      rw [ih rrs]
      refine Prod.ext ?_ ?_
      · refine congrArg (fun g => rrs.map g) (funext fun x => ?_)
        simp [List.any_cons, hupdF]
      · rw [List.filterMap_cons]
        simp [hu]
    | some u =>
      cases hfire : recurringFires now rr with
      | false =>
        have hupdF : recurringUpdates cfg f users now rr = false := by
          simp [recurringUpdates, hfire]
        simp only [hfire, Bool.false_eq_true, if_false]
        rw [ih rrs]
        refine Prod.ext ?_ ?_
        · refine congrArg (fun g => rrs.map g) (funext fun x => ?_)
          simp [List.any_cons, hupdF]
        · rw [List.filterMap_cons]
          simp [hu, hfire]
      | true =>
        cases cfg with
        | false =>
          have hupdT : recurringUpdates false f users now rr = true := by
            simp [recurringUpdates, hu, hfire]
          simp only [hfire, ite_true, Bool.false_eq_true, if_false]
          rw [ih (markTriggered now rr.id rrs), map_markTriggered]
          refine Prod.ext ?_ ?_
          · refine congrArg (fun g => rrs.map g) (funext fun x => ?_)
            simp [List.any_cons, hupdT]
          · rw [List.filterMap_cons]
            simp [hu, hfire]
        | true =>
          cases hf : f rr.id with
          | false =>
            have hupdT : recurringUpdates true f users now rr = true := by
              simp [recurringUpdates, hu, hfire, hf]
            simp only [hfire, hf, ite_true, Bool.false_eq_true, if_false]
            rw [ih (markTriggered now rr.id rrs), map_markTriggered]
            refine Prod.ext ?_ ?_
            · refine congrArg (fun g => rrs.map g) (funext fun x => ?_)
              simp [List.any_cons, hupdT]
            · rw [List.filterMap_cons]
              simp [hu, hfire]
          | true =>
            have hupdF : recurringUpdates true f users now rr = false := by
              simp [recurringUpdates, hf]
            simp only [hfire, hf, ite_true]
            rw [ih rrs]
            refine Prod.ext ?_ ?_
            · refine congrArg (fun g => rrs.map g) (funext fun x => ?_)
              simp [List.any_cons, hupdF]
            · rw [List.filterMap_cons]
              simp [hu, hfire]

/-- Weather analogue of `map_markTriggered` for `lastSentAt`
stamping. -/
theorem map_markSent (now : Date) (sid : Nat) (upd : WeatherSubscription → Bool)
    (snap subs : List WeatherSubscription) :
    (markSent now sid subs).map (fun x =>
      if snap.any (fun sub => upd sub && sub.id == x.id) then
        { x with lastSentAt := some now }
      else x) =
    subs.map (fun x =>
      if sid == x.id || snap.any (fun sub => upd sub && sub.id == x.id) then
        { x with lastSentAt := some now }
      else x) := by
  rw [markSent, List.map_map]
  refine congrArg (fun g => subs.map g) (funext fun x => ?_)
  cases x with
  | mk xid xuser xcity xact xlast =>
    by_cases hx : xid = sid
    · subst hx
      simp
    · simp [hx, Ne.symm hx]

/-- Characterization of the weather sweep loop: a subscription gets
`lastSentAt := now` exactly when some snapshot row with its id has an
owner, is due, got a non-null summary, and its send did not throw;
sends are one per served snapshot row (when configured). -/
theorem runWeather_eq (cfg : Bool) (f : Nat → Bool) (apiKey : Bool)
    (weather : String → FetchOutcome) (users : List User) (now : Date)
    (snap subs : List WeatherSubscription) :
    runWeather cfg f apiKey weather users now snap subs =
      (subs.map (fun x =>
        if snap.any (fun sub =>
            weatherUpdates cfg f apiKey weather users now sub && sub.id == x.id) then
          { x with lastSentAt := some now }
        else x),
       snap.filterMap (fun sub =>
         match findUser users sub.userId with
         | some u =>
           if weatherDue now sub then
             match fetchWeatherSummary apiKey (weather sub.city) sub.city with
             | some summary =>
               if cfg then some (u.whatsappNumber, "Daily weather update: " ++ summary)
               else none
             | none => none
           else none
         | none => none)) := by
  induction snap generalizing subs with
  | nil => simp [runWeather]
  | cons sub snap ih =>
    rw [runWeather]
    cases hu : findUser users sub.userId with
    | none =>
      have hupdF : weatherUpdates cfg f apiKey weather users now sub = false := by
        simp [weatherUpdates, hu]
      rw [ih subs]
      refine Prod.ext ?_ ?_
      · refine congrArg (fun g => subs.map g) (funext fun x => ?_)
        simp [List.any_cons, hupdF]
      · rw [List.filterMap_cons]
        simp [hu]
    | some u =>
      cases hdue : weatherDue now sub with
      | false =>
        have hskip : (match sub.lastSentAt with
            | some last => isSameDay now last
            | none => false) = true := by
          have := hdue
          unfold weatherDue at this
          simpa using this
        have hupdF : weatherUpdates cfg f apiKey weather users now sub = false := by
          simp [weatherUpdates, hdue]
        simp only [hskip, ite_true]
        rw [ih subs]
        refine Prod.ext ?_ ?_
        · refine congrArg (fun g => subs.map g) (funext fun x => ?_)
          simp [List.any_cons, hupdF]
        · rw [List.filterMap_cons]
          simp [hu, hdue]
      | true =>
        have hskip : (match sub.lastSentAt with
            | some last => isSameDay now last
            | none => false) = false := by
          have := hdue
          unfold weatherDue at this
          simpa using this
        simp only [hskip, Bool.false_eq_true, if_false]
        cases hsum : fetchWeatherSummary apiKey (weather sub.city) sub.city with
        | none =>
          have hupdF : weatherUpdates cfg f apiKey weather users now sub = false := by
            simp [weatherUpdates, hsum]
          rw [ih subs]
          refine Prod.ext ?_ ?_
          · refine congrArg (fun g => subs.map g) (funext fun x => ?_)
            simp [List.any_cons, hupdF]
          · rw [List.filterMap_cons]
            simp [hu, hdue, hsum]
        | some summary =>
          cases cfg with
          | false =>
            have hupdT : weatherUpdates false f apiKey weather users now sub = true := by
              simp [weatherUpdates, hu, hdue, hsum]
            simp only [Bool.false_eq_true, if_false]
            rw [ih (markSent now sub.id subs), map_markSent]
            refine Prod.ext ?_ ?_
            · refine congrArg (fun g => subs.map g) (funext fun x => ?_)
              simp [List.any_cons, hupdT]
            · rw [List.filterMap_cons]
              simp [hu, hdue, hsum]
          | true =>
            cases hf : f sub.id with
            | false =>
              have hupdT : weatherUpdates true f apiKey weather users now sub = true := by
                simp [weatherUpdates, hu, hdue, hsum, hf]
              simp only [hf, Bool.false_eq_true, if_false, ite_true]
              rw [ih (markSent now sub.id subs), map_markSent]
              refine Prod.ext ?_ ?_
              · refine congrArg (fun g => subs.map g) (funext fun x => ?_)
                simp [List.any_cons, hupdT]
              · rw [List.filterMap_cons]
                simp [hu, hdue, hsum]
            | true =>
              have hupdF : weatherUpdates true f apiKey weather users now sub = false := by
                simp [weatherUpdates, hf]
              simp only [hf, ite_true]
              rw [ih subs]
              refine Prod.ext ?_ ?_
              · refine congrArg (fun g => subs.map g) (funext fun x => ?_)
                simp [List.any_cons, hupdF]
              · rw [List.filterMap_cons]
                simp [hu, hdue, hsum]

/-- C1 counterexample: a due one-time reminder whose owner exists gets
its send attempted, the send throws, and the row is NOT deleted — the
deletion does not happen "whether or not the send succeeded". -/
theorem oneTime_failed_send_row_survives_cex :
    (oneTimeSweep true (fun _ => true) ⟨2026, 10, 12, 10, 0⟩
        ⟨[⟨1, "whatsapp:+15550001", none, 0, none, none⟩],
         [⟨1, 1, "due now", ⟨2026, 10, 12, 9, 59⟩⟩], [], [], 10, 20, 30⟩).1.reminders =
      [⟨1, 1, "due now", ⟨2026, 10, 12, 9, 59⟩⟩] ∧
    (oneTimeSweep true (fun _ => true) ⟨2026, 10, 12, 10, 0⟩
        ⟨[⟨1, "whatsapp:+15550001", none, 0, none, none⟩],
         [⟨1, 1, "due now", ⟨2026, 10, 12, 9, 59⟩⟩], [], [], 10, 20, 30⟩).2 =
      [("whatsapp:+15550001", "Reminder: due now")] := by
  exact ⟨rfl, rfl⟩

/-- C1 (amended): in the one-time sweep, a due row with an owner has
its send attempted (when Twilio is configured) and is deleted exactly
when that send does not throw; a throwing send leaves the row in place
for the next tick. -/
theorem oneTimeSweep_delete_iff_send_throws (cfg : Bool) (f : Nat → Bool) (now : Date)
    (db : DB) (r : Reminder) (u : User)
    (hnd : (db.reminders.map Reminder.id).Nodup)
    (hr : r ∈ db.reminders) (hdue : Date.lte r.time now = true)
    (hu : findUser db.users r.userId = some u) :
    (r ∈ (oneTimeSweep cfg f now db).1.reminders ↔ cfg = true ∧ f r.id = true) ∧
    (cfg = true →
      (u.whatsappNumber, "Reminder: " ++ r.message) ∈ (oneTimeSweep cfg f now db).2) := by
  simp only [oneTimeSweep, runOneTime_eq]
  constructor
  · simp only [List.mem_filter]
    constructor
    · rintro ⟨-, hall⟩
      have hrdue : r ∈ db.reminders.filter (fun r => Date.lte r.time now) :=
        List.mem_filter.mpr ⟨hr, hdue⟩
      have hthis := List.all_eq_true.mp hall r hrdue
      simpa [oneTimeDeletes, hu] using hthis
    · rintro ⟨hc, hf⟩
      refine ⟨hr, ?_⟩
      apply List.all_eq_true.mpr
      intro r' hr'
      have hr'mem : r' ∈ db.reminders := (List.mem_filter.mp hr').1
      by_cases hid : r.id = r'.id
      · have : r' = r := List.inj_on_of_nodup_map hnd hr'mem hr hid.symm
        subst this
        simp [oneTimeDeletes, hu, hc, hf]
      · simp [hid]
  · intro hc
    subst hc
    apply List.mem_filterMap.mpr
    exact ⟨r, List.mem_filter.mpr ⟨hr, hdue⟩, by simp [hu]⟩

/-- Witness for `oneTimeSweep_delete_iff_send_throws` at a concrete
store with one due reminder and a non-throwing send. -/
theorem oneTimeSweep_delete_iff_send_throws_witness :
    ((⟨1, 1, "due now", ⟨2026, 10, 12, 9, 59⟩⟩ : Reminder) ∈
      (oneTimeSweep true (fun _ => false) ⟨2026, 10, 12, 10, 0⟩
        ⟨[⟨1, "whatsapp:+15550001", none, 0, none, none⟩],
         [⟨1, 1, "due now", ⟨2026, 10, 12, 9, 59⟩⟩], [], [], 10, 20, 30⟩).1.reminders ↔
      true = true ∧ (fun _ => false) 1 = true) ∧
    (true = true →
      ("whatsapp:+15550001", "Reminder: " ++ "due now") ∈
        (oneTimeSweep true (fun _ => false) ⟨2026, 10, 12, 10, 0⟩
          ⟨[⟨1, "whatsapp:+15550001", none, 0, none, none⟩],
           [⟨1, 1, "due now", ⟨2026, 10, 12, 9, 59⟩⟩], [], [], 10, 20, 30⟩).2) :=
  oneTimeSweep_delete_iff_send_throws true (fun _ => false) ⟨2026, 10, 12, 10, 0⟩
    ⟨[⟨1, "whatsapp:+15550001", none, 0, none, none⟩],
     [⟨1, 1, "due now", ⟨2026, 10, 12, 9, 59⟩⟩], [], [], 10, 20, 30⟩
    ⟨1, 1, "due now", ⟨2026, 10, 12, 9, 59⟩⟩ ⟨1, "whatsapp:+15550001", none, 0, none, none⟩
    (by decide) (by decide) (by decide) (by decide)

/-- C2 counterexample: a firing DAILY recurring reminder whose send
throws keeps `lastTriggeredAt = none` — the update does not happen
"regardless of whether the send succeeded" (and the reminder stays
eligible to fire again). -/
theorem recurring_failed_send_no_update_cex :
    (recurringSweep true (fun _ => true) ⟨2026, 10, 12, 10, 0⟩
        ⟨[⟨1, "whatsapp:+15550001", none, 0, none, none⟩], [],
         [⟨2, 1, "walk", RecurrenceType.DAILY, "10:00", none, true, none⟩], [],
         10, 20, 30⟩).1.recurring =
      [⟨2, 1, "walk", RecurrenceType.DAILY, "10:00", none, true, none⟩] ∧
    (recurringSweep true (fun _ => true) ⟨2026, 10, 12, 10, 0⟩
        ⟨[⟨1, "whatsapp:+15550001", none, 0, none, none⟩], [],
         [⟨2, 1, "walk", RecurrenceType.DAILY, "10:00", none, true, none⟩], [],
         10, 20, 30⟩).2 =
      [("whatsapp:+15550001", "Recurring reminder: walk")] ∧
    recurringFires ⟨2026, 10, 12, 10, 0⟩
      ⟨2, 1, "walk", RecurrenceType.DAILY, "10:00", none, true, none⟩ = true := by
  exact ⟨rfl, rfl, rfl⟩

/-- C2 (amended): when an active recurring reminder with an owner
fires, "Recurring reminder: message" is sent (when Twilio is
configured) and `lastTriggeredAt := now` is stamped exactly when the
send does not throw; a throwing send leaves `lastTriggeredAt`
unchanged, so nothing suppresses a repeat within the same period. -/
theorem recurringSweep_update_iff_send_ok (cfg : Bool) (f : Nat → Bool) (now : Date)
    (db : DB) (rr : RecurringReminder) (u : User)
    (hnd : (db.recurring.map RecurringReminder.id).Nodup)
    (hrr : rr ∈ db.recurring) (hact : rr.active = true)
    (hfire : recurringFires now rr = true)
    (hu : findUser db.users rr.userId = some u) :
    (¬(cfg = true ∧ f rr.id = true) →
      { rr with lastTriggeredAt := some now } ∈ (recurringSweep cfg f now db).1.recurring) ∧
    (cfg = true ∧ f rr.id = true → rr ∈ (recurringSweep cfg f now db).1.recurring) ∧
    (cfg = true →
      (u.whatsappNumber, "Recurring reminder: " ++ rr.message) ∈
        (recurringSweep cfg f now db).2) := by
  simp only [recurringSweep, runRecurring_eq]
  have hsnap : rr ∈ db.recurring.filter (fun rr => rr.active) :=
    List.mem_filter.mpr ⟨hrr, hact⟩
  refine ⟨?_, ?_, ?_⟩
  · intro hok
    have hupd : recurringUpdates cfg f db.users now rr = true := by
      simp only [recurringUpdates, hu, hfire, Option.isSome_some, Bool.true_and, Bool.and_true]
      cases cfg with
      | false => simp
      | true =>
        cases hf2 : f rr.id with
        | false => simp
        | true => exact absurd ⟨rfl, hf2⟩ hok
    have hany : (db.recurring.filter (fun rr => rr.active)).any
        (fun rr' => recurringUpdates cfg f db.users now rr' && rr'.id == rr.id) = true :=
      List.any_eq_true.mpr ⟨rr, hsnap, by simp [hupd]⟩
    exact List.mem_map.mpr ⟨rr, hrr, by simp [hany]⟩
  · rintro ⟨hc, hf⟩
    have hupdF : recurringUpdates cfg f db.users now rr = false := by
      simp [recurringUpdates, hc, hf]
    have hany : (db.recurring.filter (fun rr => rr.active)).any
        (fun rr' => recurringUpdates cfg f db.users now rr' && rr'.id == rr.id) = false := by
      apply List.any_eq_false.mpr
      intro rr' hrr'
      have hrr'mem : rr' ∈ db.recurring := (List.mem_filter.mp hrr').1
      by_cases hid : rr'.id = rr.id
      · have heq : rr' = rr := List.inj_on_of_nodup_map hnd hrr'mem hrr hid
        subst heq
        simp [hupdF]
      · simp [hid]
    exact List.mem_map.mpr ⟨rr, hrr, by simp [hany]⟩
  · intro hc
    subst hc
    apply List.mem_filterMap.mpr
    exact ⟨rr, hsnap, by simp [hu, hfire]⟩

/-- Witness for `recurringSweep_update_iff_send_ok` at a concrete
store with one firing DAILY reminder and a non-throwing send. -/
theorem recurringSweep_update_iff_send_ok_witness :
    (⟨2, 1, "walk", RecurrenceType.DAILY, "10:00", none, true,
        some ⟨2026, 10, 12, 10, 0⟩⟩ : RecurringReminder) ∈
      (recurringSweep true (fun _ => false) ⟨2026, 10, 12, 10, 0⟩
        ⟨[⟨1, "whatsapp:+15550001", none, 0, none, none⟩], [],
         [⟨2, 1, "walk", RecurrenceType.DAILY, "10:00", none, true, none⟩], [],
         10, 20, 30⟩).1.recurring :=
  (recurringSweep_update_iff_send_ok true (fun _ => false) ⟨2026, 10, 12, 10, 0⟩
    ⟨[⟨1, "whatsapp:+15550001", none, 0, none, none⟩], [],
     [⟨2, 1, "walk", RecurrenceType.DAILY, "10:00", none, true, none⟩], [],
     10, 20, 30⟩
    ⟨2, 1, "walk", RecurrenceType.DAILY, "10:00", none, true, none⟩
    ⟨1, "whatsapp:+15550001", none, 0, none, none⟩
    (by decide) (by decide) (by decide) (by decide) (by decide)).1 (by decide)

/-- C10: an HTTP-OK weather response lacking the temperature or
description still yields a non-null "not available" summary, so the
sweep sends it and stamps `lastSentAt := now`; a null summary arises
exactly from a missing API key, a non-OK HTTP status, or a thrown
fetch. -/
theorem weather_missing_fields_counts_as_success :
    (∀ (city : String) (main : WeatherMain) (desc : Option String),
      main.temp = none ∨ desc = none ∨ desc = some "" →
      fetchWeatherSummary true (FetchOutcome.ok main desc) city =
        some ("Weather information not available for " ++ city ++ ".")) ∧
    (∀ (apiKey : Bool) (outcome : FetchOutcome) (city : String),
      fetchWeatherSummary apiKey outcome city = none ↔
        apiKey = false ∨ outcome = FetchOutcome.thrown ∨
          ∃ s, outcome = FetchOutcome.httpError s) ∧
    (∀ (f : Nat → Bool) (weather : String → FetchOutcome) (now : Date) (db : DB)
        (sub : WeatherSubscription) (u : User) (main : WeatherMain) (desc : Option String),
      (db.weatherSubs.map WeatherSubscription.id).Nodup →
      getCurrentTimeString now = "09:00" →
      sub ∈ db.weatherSubs → sub.active = true → weatherDue now sub = true →
      findUser db.users sub.userId = some u →
      weather sub.city = FetchOutcome.ok main desc →
      (main.temp = none ∨ desc = none ∨ desc = some "") →
      f sub.id = false →
      ({ sub with lastSentAt := some now } ∈
          (weatherSweep true f true weather now db).1.weatherSubs ∧
        (u.whatsappNumber,
          "Daily weather update: " ++
            ("Weather information not available for " ++ sub.city ++ ".")) ∈
          (weatherSweep true f true weather now db).2)) := by
  have hna : ∀ (city : String) (main : WeatherMain) (desc : Option String),
      main.temp = none ∨ desc = none ∨ desc = some "" →
      fetchWeatherSummary true (FetchOutcome.ok main desc) city =
        some ("Weather information not available for " ++ city ++ ".") := by
    intro city main desc h
    rcases h with h | h | h
    · cases desc <;> simp [fetchWeatherSummary, h]
    · cases htemp : main.temp <;> simp [fetchWeatherSummary, h, htemp]
    · cases htemp : main.temp <;> simp [fetchWeatherSummary, h, htemp]
  refine ⟨hna, ?_, ?_⟩
  · intro apiKey outcome city
    cases apiKey with
    | false => simp [fetchWeatherSummary]
    | true =>
      cases outcome with
      | ok main desc =>
        simp only [fetchWeatherSummary, Bool.not_true, Bool.false_eq_true, if_false]
        constructor
        · intro h
          exfalso
          cases htemp : main.temp <;> cases hdesc : desc <;>
            simp [htemp, hdesc] at h <;> split at h <;> simp_all
        · rintro (h | h | ⟨s, h⟩) <;> simp_all
      | httpError s => simp [fetchWeatherSummary]
      | thrown => simp [fetchWeatherSummary]
  · intro f weather now db sub u main desc hnd h9 hsub hact hdue hu hw hmiss hf
    have hsum : fetchWeatherSummary true (weather sub.city) sub.city =
        some ("Weather information not available for " ++ sub.city ++ ".") := by
      rw [hw]
      exact hna sub.city main desc hmiss
    have hsnap : sub ∈ db.weatherSubs.filter (fun s => s.active) :=
      List.mem_filter.mpr ⟨hsub, hact⟩
    have hupd : weatherUpdates true f true weather db.users now sub = true := by
      simp [weatherUpdates, hu, hdue, hsum, hf]
    simp only [weatherSweep, h9, Bool.and_self, beq_self_eq_true, Bool.true_and, if_true,
      runWeather_eq, ite_true]
    constructor
    · have hany : (db.weatherSubs.filter (fun s => s.active)).any
          (fun s => weatherUpdates true f true weather db.users now s && s.id == sub.id) =
            true :=
        List.any_eq_true.mpr ⟨sub, hsnap, by simp [hupd]⟩
      exact List.mem_map.mpr ⟨sub, hsub, by simp [hany]⟩
    · apply List.mem_filterMap.mpr
      exact ⟨sub, hsnap, by simp [hu, hdue, hsum]⟩

/-- Witness for `weather_missing_fields_counts_as_success`: a response
with no temperature for Mumbai at the 09:00 tick. -/
theorem weather_missing_fields_counts_as_success_witness :
    ((⟨5, 1, "Mumbai", true, some ⟨2026, 10, 12, 9, 0⟩⟩ : WeatherSubscription) ∈
      (weatherSweep true (fun _ => false) true
        (fun _ => FetchOutcome.ok ⟨none, none, none⟩ (some "haze")) ⟨2026, 10, 12, 9, 0⟩
        ⟨[⟨1, "whatsapp:+15550001", none, 0, none, none⟩], [], [],
         [⟨5, 1, "Mumbai", true, none⟩], 10, 20, 30⟩).1.weatherSubs ∧
     ("whatsapp:+15550001",
       "Daily weather update: " ++ ("Weather information not available for " ++ "Mumbai" ++ ".")) ∈
      (weatherSweep true (fun _ => false) true
        (fun _ => FetchOutcome.ok ⟨none, none, none⟩ (some "haze")) ⟨2026, 10, 12, 9, 0⟩
        ⟨[⟨1, "whatsapp:+15550001", none, 0, none, none⟩], [], [],
         [⟨5, 1, "Mumbai", true, none⟩], 10, 20, 30⟩).2) :=
  weather_missing_fields_counts_as_success.2.2
    (fun _ => false) (fun _ => FetchOutcome.ok ⟨none, none, none⟩ (some "haze"))
    ⟨2026, 10, 12, 9, 0⟩
    ⟨[⟨1, "whatsapp:+15550001", none, 0, none, none⟩], [], [],
     [⟨5, 1, "Mumbai", true, none⟩], 10, 20, 30⟩
    ⟨5, 1, "Mumbai", true, none⟩ ⟨1, "whatsapp:+15550001", none, 0, none, none⟩
    ⟨none, none, none⟩ (some "haze")
    (by decide) (by decide) (by decide) (by decide) (by decide) (by decide) (by decide)
    (by decide) (by decide)

/-- Witness for `monthly_fire_guard`: a rent reminder on day 15 firing
on 2026-10-15. -/
theorem monthly_fire_guard_witness :
    (⟨2, 1, "rent", RecurrenceType.MONTHLY, "09:00", some 15, true, none⟩ :
      RecurringReminder).dayOfMonth = some (⟨2026, 10, 15, 9, 0⟩ : Date).day ∧
    ((⟨2, 1, "rent", RecurrenceType.MONTHLY, "09:00", some 15, true, none⟩ :
      RecurringReminder).lastTriggeredAt = none ∨
      ∀ last, (⟨2, 1, "rent", RecurrenceType.MONTHLY, "09:00", some 15, true, none⟩ :
        RecurringReminder).lastTriggeredAt = some last →
        isSameYearMonth ⟨2026, 10, 15, 9, 0⟩ last = false) :=
  (monthly_fire_guard
    ⟨2, 1, "rent", RecurrenceType.MONTHLY, "09:00", some 15, true, none⟩
    ⟨2026, 10, 15, 9, 0⟩ rfl).1 (by decide)

/-- Helper: a non-empty character list never renders as the empty
string. -/
theorem asString_ne_empty_of_ne_nil (l : List Char) (h : l ≠ []) : l.asString ≠ "" := by
  intro hc
  apply h
  have := congrArg String.toList hc
  simpa using this

/-- C8 counterexample: for "IN 5 MINUTES call mom" the parser matches
(case-insensitively) but the case-sensitive replace leaves the duration
phrase in the message, while the specified cleaning yields
"call mom". -/
theorem relative_strip_case_sensitive_cex :
    (parseSimpleRelativeReminder ⟨2026, 10, 12, 10, 0⟩ "IN 5 MINUTES call mom").map
      RelParse.reminderMessage = some "IN 5 MINUTES call mom" ∧
    specCleanMessage "IN 5 MINUTES call mom" = "call mom" ∧
    ("IN 5 MINUTES call mom" : String) ≠ "call mom" := by
  exact ⟨rfl, rfl, by decide⟩

/-- C8 (amended): a successful relative parse always returns a
non-empty message and the timestamp `now + N` minutes (or hours); the
message matches the specified cleaning whenever the lowercased matched
phrase occurs verbatim in the text — in particular for all-lowercase
input — because the duration-phrase strip is a case-sensitive replace
of the lowercased match (the "today" and "remind me" strips are
case-insensitive as specified). -/
theorem parseSimpleRelativeReminder_spec (now : Date) (text : String) (r : RelParse)
    (h : parseSimpleRelativeReminder now text = some r) :
    r.reminderMessage ≠ "" ∧
    (∃ m : RelMatch, searchRel (lowerL text.toList) = some m ∧ m.amount ≠ 0 ∧
      r.datetime = Date.addMinutes now (if m.isMin then m.amount else m.amount * 60)) ∧
    (lowerL text.toList = text.toList → r.reminderMessage = specCleanMessage text) := by
  simp only [parseSimpleRelativeReminder] at h
  cases hm : searchRel (lowerL text.toList) with
  | none => rw [hm] at h; simp at h
  | some m =>
    simp only [hm] at h
    by_cases ha : m.amount = 0
    · rw [if_pos (show (m.amount == 0) = true by simp [ha])] at h
      simp at h
    · rw [if_neg (show ¬(m.amount == 0) = true by simp [ha])] at h
      simp only [Option.some.injEq] at h
      subst h
      refine ⟨?_, ⟨m, rfl, ha, rfl⟩, ?_⟩
      · simp only []
        split
        · apply asString_ne_empty_of_ne_nil
          intro hnil
          have hws := jsTrimL_eq_nil_all_ws _ hnil
          have hi : 'i' ∈ lowerL text.toList := searchRel_mem_i _ _ hm
          obtain ⟨c, hc, hlc⟩ := List.mem_map.mp hi
          have : Char.toLower c = c := toLower_of_isWS c (hws c hc)
          rw [this] at hlc
          subst hlc
          exact absurd (hws _ hc) (by decide)
        · next hne =>
          apply asString_ne_empty_of_ne_nil
          simpa using hne
      · intro hlow
        have hfixl : ∀ c ∈ text.toList, Char.toLower c = c := lower_fixed_mem hlow
        have hfixp : ∀ c ∈ m.match0, Char.toLower c = c := searchRel_match0_fixed _ _ hm
        have hrepl : replaceFirstSubCI text.toList m.match0 =
            replaceFirstSub text.toList m.match0 := by
          unfold replaceFirstSubCI replaceFirstSub
          rw [removeFirstSubCI_eq_of_fixed _ _ hfixl hfixp]
        simp only [specCleanMessage, hm, hrepl]

/-- Witness for `parseSimpleRelativeReminder_spec` at the lowercase
input "remind me to call mom in 5 minutes". -/
theorem parseSimpleRelativeReminder_spec_witness :
    ("call mom" : String) ≠ "" ∧
    (∃ m : RelMatch,
      searchRel (lowerL ("remind me to call mom in 5 minutes" : String).toList) = some m ∧
      m.amount ≠ 0 ∧
      (⟨2026, 10, 12, 10, 5⟩ : Date) =
        Date.addMinutes ⟨2026, 10, 12, 10, 0⟩
          (if m.isMin then m.amount else m.amount * 60)) ∧
    (lowerL ("remind me to call mom in 5 minutes" : String).toList =
        ("remind me to call mom in 5 minutes" : String).toList →
      ("call mom" : String) = specCleanMessage "remind me to call mom in 5 minutes") :=
  parseSimpleRelativeReminder_spec ⟨2026, 10, 12, 10, 0⟩
    "remind me to call mom in 5 minutes" ⟨"call mom", ⟨2026, 10, 12, 10, 5⟩⟩ (by decide)

/-- Helper: incrementing the counter of the matched user id commutes
with the first-match lookup. -/
theorem findUser_map_increment (users : List User) (uid : Nat) (u : User)
    (hu : findUser users uid = some u) :
    findUser (users.map (fun v =>
        if v.id == uid then { v with reminderCount := v.reminderCount + 1 } else v)) uid =
      some { u with reminderCount := u.reminderCount + 1 } := by
  induction users with
  | nil => simp [findUser] at hu
  | cons a as ih =>
    by_cases ha : (a.id == uid) = true
    · have hua : u = a := by
        unfold findUser at hu
        simp only [List.find?, ha] at hu
        exact (Option.some.inj hu).symm
      subst hua
      unfold findUser
      simp [List.map_cons, List.find?, ha]
    · have ha' : (a.id == uid) = false := by simpa using ha
      have hrec : findUser as uid = some u := by
        unfold findUser at hu ⊢
        simpa only [List.find?, ha'] using hu
      unfold findUser at ih ⊢
      simp only [List.map_cons, List.find?, ha', Bool.false_eq_true, if_false]
      exact ih hrec

/-- C3 counterexample: a successful snooze creation ("snooze 10
minutes" with a remembered last reminder) persists a OneTimeReminder
but leaves the user's `reminderCount` at 0 — the snooze path increments
nothing and runs outside any transaction. -/
theorem snooze_no_counter_increment_cex :
    (handlePost
        ⟨⟨2026, 10, 12, 10, 0⟩,
         some ⟨1, "whatsapp:+15550001", some "Mihir", 0, some "call mom",
           some ⟨2026, 10, 12, 9, 0⟩⟩, false, none, true⟩
        ⟨[], [],
         ⟨[⟨1, "whatsapp:+15550001", some "Mihir", 0, some "call mom",
            some ⟨2026, 10, 12, 9, 0⟩⟩], [], [], [], 10, 20, 30⟩⟩
        (some "whatsapp:+15550001") (some "snooze 10 minutes")).state.db.reminders =
      [⟨10, 1, "call mom", ⟨2026, 10, 12, 10, 10⟩⟩] ∧
    (handlePost
        ⟨⟨2026, 10, 12, 10, 0⟩,
         some ⟨1, "whatsapp:+15550001", some "Mihir", 0, some "call mom",
           some ⟨2026, 10, 12, 9, 0⟩⟩, false, none, true⟩
        ⟨[], [],
         ⟨[⟨1, "whatsapp:+15550001", some "Mihir", 0, some "call mom",
            some ⟨2026, 10, 12, 9, 0⟩⟩], [], [], [], 10, 20, 30⟩⟩
        (some "whatsapp:+15550001") (some "snooze 10 minutes")).state.db.users =
      [⟨1, "whatsapp:+15550001", some "Mihir", 0, some "call mom",
        some ⟨2026, 10, 12, 9, 0⟩⟩] := by
  exact ⟨rfl, rfl⟩

/-- C3 (amended): the NLP, relative-fallback and guided-flow creations
go through one transaction that writes the record and increments the
owner's `reminderCount` together — on success both apply, on failure
neither; the snooze path persists its reminder alone and never touches
`reminderCount`. -/
theorem creation_paths_txn_atomic (db : DB) (uid : Nat) (t : Date) (msg : String) (u : User)
    (hu : findUser db.users uid = some u) :
    ((createOneTimeTxn true db uid t msg).reminders =
        db.reminders ++ [⟨db.nextReminderId, uid, msg, t⟩] ∧
      findUser (createOneTimeTxn true db uid t msg).users uid =
        some { u with reminderCount := u.reminderCount + 1 } ∧
      createOneTimeTxn false db uid t msg = db) ∧
    (∀ (rtype : RecurrenceType) (tod : String) (dom : Option Nat),
      (createRecurringTxn true db uid msg rtype tod dom).recurring =
        db.recurring ++ [⟨db.nextRecurringId, uid, msg, rtype, tod, dom, true, none⟩] ∧
      findUser (createRecurringTxn true db uid msg rtype tod dom).users uid =
        some { u with reminderCount := u.reminderCount + 1 } ∧
      createRecurringTxn false db uid msg rtype tod dom = db) ∧
    ((createReminderOnly true db uid t msg).users = db.users ∧
      (createReminderOnly true db uid t msg).reminders =
        db.reminders ++ [⟨db.nextReminderId, uid, msg, t⟩] ∧
      ∀ (dbOk : Bool) (now : Date) (rest : List (List Char)) (sender : String) (v : User),
        (handleSnoozeCommand dbOk now db v rest sender).1.users = db.users) := by
  refine ⟨⟨rfl, ?_, rfl⟩, fun rtype tod dom => ⟨rfl, ?_, rfl⟩, rfl, rfl, ?_⟩
  · exact findUser_map_increment db.users uid u hu
  · exact findUser_map_increment db.users uid u hu
  · intro dbOk now rest sender v
    unfold handleSnoozeCommand
    split
    · rfl
    · split
      · rfl
      · split
        · rfl
        · split
          · simp [createReminderOnly]
          · rfl

/-- Witness for `creation_paths_txn_atomic` at a one-user store. -/
theorem creation_paths_txn_atomic_witness :
    ((createOneTimeTxn true ⟨[⟨1, "whatsapp:+15550001", none, 0, none, none⟩],
          [], [], [], 10, 20, 30⟩ 1 ⟨2026, 10, 12, 14, 56⟩ "call mom").reminders =
        [] ++ [⟨10, 1, "call mom", ⟨2026, 10, 12, 14, 56⟩⟩] ∧
      findUser (createOneTimeTxn true ⟨[⟨1, "whatsapp:+15550001", none, 0, none, none⟩],
          [], [], [], 10, 20, 30⟩ 1 ⟨2026, 10, 12, 14, 56⟩ "call mom").users 1 =
        some ⟨1, "whatsapp:+15550001", none, 1, none, none⟩ ∧
      createOneTimeTxn false ⟨[⟨1, "whatsapp:+15550001", none, 0, none, none⟩],
          [], [], [], 10, 20, 30⟩ 1 ⟨2026, 10, 12, 14, 56⟩ "call mom" =
        ⟨[⟨1, "whatsapp:+15550001", none, 0, none, none⟩], [], [], [], 10, 20, 30⟩) ∧
    (∀ (rtype : RecurrenceType) (tod : String) (dom : Option Nat),
      (createRecurringTxn true ⟨[⟨1, "whatsapp:+15550001", none, 0, none, none⟩],
          [], [], [], 10, 20, 30⟩ 1 "call mom" rtype tod dom).recurring =
        [] ++ [⟨20, 1, "call mom", rtype, tod, dom, true, none⟩] ∧
      findUser (createRecurringTxn true ⟨[⟨1, "whatsapp:+15550001", none, 0, none, none⟩],
          [], [], [], 10, 20, 30⟩ 1 "call mom" rtype tod dom).users 1 =
        some ⟨1, "whatsapp:+15550001", none, 1, none, none⟩ ∧
      createRecurringTxn false ⟨[⟨1, "whatsapp:+15550001", none, 0, none, none⟩],
          [], [], [], 10, 20, 30⟩ 1 "call mom" rtype tod dom =
        ⟨[⟨1, "whatsapp:+15550001", none, 0, none, none⟩], [], [], [], 10, 20, 30⟩) ∧
    ((createReminderOnly true ⟨[⟨1, "whatsapp:+15550001", none, 0, none, none⟩],
          [], [], [], 10, 20, 30⟩ 1 ⟨2026, 10, 12, 14, 56⟩ "call mom").users =
        [⟨1, "whatsapp:+15550001", none, 0, none, none⟩] ∧
      (createReminderOnly true ⟨[⟨1, "whatsapp:+15550001", none, 0, none, none⟩],
          [], [], [], 10, 20, 30⟩ 1 ⟨2026, 10, 12, 14, 56⟩ "call mom").reminders =
        [] ++ [⟨10, 1, "call mom", ⟨2026, 10, 12, 14, 56⟩⟩] ∧
      ∀ (dbOk : Bool) (now : Date) (rest : List (List Char)) (sender : String) (v : User),
        (handleSnoozeCommand dbOk now ⟨[⟨1, "whatsapp:+15550001", none, 0, none, none⟩],
          [], [], [], 10, 20, 30⟩ v rest sender).1.users =
          (⟨[⟨1, "whatsapp:+15550001", none, 0, none, none⟩], [], [], [], 10, 20, 30⟩ : DB).users) :=
  creation_paths_txn_atomic ⟨[⟨1, "whatsapp:+15550001", none, 0, none, none⟩],
    [], [], [], 10, 20, 30⟩ 1 ⟨2026, 10, 12, 14, 56⟩ "call mom"
    ⟨1, "whatsapp:+15550001", none, 0, none, none⟩ (by decide)

/-- Helper: a literal match exposes the head of the text. -/
theorem dropLit_head (l r : List Char) (p : Char) (ps : List Char)
    (h : dropLit l (p :: ps) = some r) : ∃ t, l = p :: t := by
  cases l with
  | nil => simp [dropLit] at h
  | cons c t =>
    rw [dropLit] at h
    by_cases hc : (c == p) = true
    · exact ⟨t, by rw [beq_iff_eq.mp hc]⟩
    · rw [if_neg hc] at h
      simp at h

/-- Helper: a cancel-by-id match means the lowercased text starts with
'c'. -/
theorem matchCancelOneTime_head (l : List Char) (n : Nat)
    (h : matchCancelOneTime l = some n) : ∃ t, l = 'c' :: t := by
  unfold matchCancelOneTime at h
  cases hd : dropLit l "cancel".toList with
  | none => rw [hd] at h; simp at h
  | some l1 => exact dropLit_head l l1 'c' "ancel".toList hd

/-- Helper: a cancel-recurring match means the lowercased text starts
with 'c'. -/
theorem matchCancelRecurring_head (l : List Char) (n : Nat)
    (h : matchCancelRecurring l = some n) : ∃ t, l = 'c' :: t := by
  unfold matchCancelRecurring at h
  cases hd : dropLit l "cancel".toList with
  | none => rw [hd] at h; simp at h
  | some l1 => exact dropLit_head l l1 'c' "ancel".toList hd

/-- Helper: the head token of a split starts with the first character
when that character is not whitespace. -/
theorem jsSplitWsGo_head : ∀ (l acc : List Char),
    ∃ suffix ts, jsSplitWsGo l acc = (acc.reverse ++ suffix) :: ts := by
  intro l
  induction l with
  | nil => exact fun acc => ⟨[], [], by simp [jsSplitWsGo]⟩
  | cons c rest ih =>
    intro acc
    by_cases hws : isWS c = true
    · exact ⟨[], jsSplitWsSkip rest, by simp [jsSplitWsGo, hws]⟩
    · obtain ⟨s, ts, hs⟩ := ih (c :: acc)
      refine ⟨c :: s, ts, ?_⟩
      rw [jsSplitWsGo, if_neg (by simpa using hws), hs]
      simp

/-- Helper: splitting a text that starts with a non-whitespace
character yields a head token starting with it. -/
theorem jsSplitWs_head_of_head (c : Char) (l : List Char) (h : isWS c = false) :
    ∃ suffix ts, jsSplitWs (c :: l) = (c :: suffix) :: ts := by
  unfold jsSplitWs
  rw [jsSplitWsGo, if_neg (by simp [h])]
  obtain ⟨s, ts, hs⟩ := jsSplitWsGo_head l [c]
  exact ⟨s, ts, by simpa using hs⟩

/-- Routing facts forced by a cancel-by-id command: none of the other
exact-match guards can hold, and the first token is not "snooze". -/
theorem cancel_command_routing (l : List Char) (n : Nat)
    (h : matchCancelOneTime l = some n ∨ matchCancelRecurring l = some n) :
    isCancelWeatherL l = false ∧ isHelpL l = false ∧ isListL l = false ∧
    isGreetingL l = false ∧
    ((jsSplitWs l).headD [] == "snooze".toList) = false := by
  have hgen : ∀ s : List Char, matchCancelOneTime s = none →
      matchCancelRecurring s = none → (l == s) = false := by
    intro s hs1 hs2
    rw [Bool.eq_false_iff]
    intro hb
    have hi := eq_of_beq hb
    rcases h with h | h
    · rw [hi, hs1] at h; cases h
    · rw [hi, hs2] at h; cases h
  obtain ⟨t, hl⟩ : ∃ t, l = 'c' :: t := by
    rcases h with h | h
    · exact matchCancelOneTime_head l n h
    · exact matchCancelRecurring_head l n h
  refine ⟨?_, ?_, ?_, ?_, ?_⟩
  · rw [isCancelWeatherL, hgen _ (by decide) (by decide), hgen _ (by decide) (by decide)]
    rfl
  · rw [isHelpL, hgen _ (by decide) (by decide), hgen _ (by decide) (by decide)]
    rfl
  · rw [isListL, hgen _ (by decide) (by decide), hgen _ (by decide) (by decide)]
    rfl
  · rw [isGreetingL, hgen _ (by decide) (by decide), hgen _ (by decide) (by decide),
      hgen _ (by decide) (by decide)]
    rfl
  · subst hl
    obtain ⟨s, ts, hs⟩ := jsSplitWs_head_of_head 'c' t (by decide)
    rw [hs]
    rw [Bool.eq_false_iff]
    intro hb
    have hi := eq_of_beq hb
    have : ('c' : Char) = 's' := by
      have hsn : "snooze".toList = 's' :: "nooze".toList := rfl
      rw [hsn] at hi
      injection (show ('c' :: s) = 's' :: "nooze".toList by simpa using hi)
    cases this

/-- Helper: the subscribe-weather matchers reject any text whose first
character lowercases to 'c'. -/
theorem subscribe_matchers_false_of_c (c0 : Char) (t : List Char)
    (hlc : Char.toLower c0 = 'c') :
    matchSubscribeCity (c0 :: t) = none ∧ isSubscribeWeatherBare (c0 :: t) = false := by
  have hws : isWS c0 = false := by
    by_cases hw : isWS c0 = true
    · have hfix := toLower_of_isWS c0 hw
      rw [hfix] at hlc
      subst hlc
      cases hw
    · simpa using hw
  have hdrop : (c0 :: t).dropWhile isWS = c0 :: t := by
    rw [List.dropWhile_cons, if_neg (by simp [hws])]
  have hlit : dropLitCI (c0 :: t) "subscribe".toList = none := by
    have hsub : "subscribe".toList = 's' :: "ubscribe".toList := rfl
    rw [hsub, dropLitCI, if_neg]
    rw [hlc]
    decide
  constructor
  · rw [matchSubscribeCity, hdrop, hlit]
    rfl
  · rw [isSubscribeWeatherBare, hdrop, hlit]
    rfl

/-- Helper: a lowercased text starting with 'c' comes from a text whose
head lowercases to 'c'. -/
theorem lowerL_head (body t : List Char) (h : lowerL body = 'c' :: t) :
    ∃ c0 t0, body = c0 :: t0 ∧ Char.toLower c0 = 'c' ∧ lowerL t0 = t := by
  cases body with
  | nil => simp [lowerL] at h
  | cons c0 t0 =>
    simp only [lowerL, List.map_cons, List.cons.injEq] at h
    exact ⟨c0, t0, rfl, h.1, h.2⟩

/-- C9: cancel-by-id touches only the caller's own records — when no
record with the given id belongs to the caller (in particular when it
belongs to someone else), both cancel forms answer "could not find" and
leave the entire state unchanged. -/
theorem cancel_only_own_records (env : Env) (st : ChatState) (u : User) (sender : String)
    (bodyOne bodyRec : String) (n1 n2 : Nat)
    (hsender : (sender == "") = false)
    (henv : env.userResolved = some u)
    (hdb : env.dbOk = true)
    (hwc : st.weatherCitySessions.contains sender = false)
    (h1 : matchCancelOneTime (lowerL (jsTrimL bodyOne.toList)) = some n1)
    (h1r : matchCancelRecurring (lowerL (jsTrimL bodyOne.toList)) = none)
    (hown1 : ∀ r ∈ st.db.reminders, ¬(r.id = n1 ∧ r.userId = u.id))
    (h2 : matchCancelRecurring (lowerL (jsTrimL bodyRec.toList)) = some n2)
    (hown2 : ∀ rr ∈ st.db.recurring, ¬(rr.id = n2 ∧ rr.userId = u.id ∧ rr.active = true)) :
    handlePost env st (some sender) (some bodyOne) =
      ⟨st, [(sender, "I could not find a one-time reminder with id " ++ toString n1 ++
        " for you.")], 200⟩ ∧
    handlePost env st (some sender) (some bodyRec) =
      ⟨st, [(sender, "I could not find an active recurring reminder with id " ++ toString n2 ++
        " for you.")], 200⟩ := by
  constructor
  · have hbody : (bodyOne == "") = false := by
      rw [Bool.eq_false_iff]
      intro hb
      rw [eq_of_beq hb] at h1
      rw [show matchCancelOneTime (lowerL (jsTrimL ("" : String).toList)) = none from by decide]
        at h1
      cases h1
    obtain ⟨hcw, hhelp, hlist, hgreet, hsnooze⟩ := cancel_command_routing _ n1 (Or.inl h1)
    obtain ⟨t, hlt⟩ := matchCancelOneTime_head _ _ h1
    obtain ⟨c0, t0, htext, hlc, -⟩ := lowerL_head _ _ hlt
    obtain ⟨hsubc, hsubb⟩ := subscribe_matchers_false_of_c c0 t0 hlc
    have hfind : st.db.reminders.find? (fun r => r.id == n1 && r.userId == u.id) = none := by
      rw [List.find?_eq_none]
      intro r hr hh
      simp only [Bool.and_eq_true, beq_iff_eq] at hh
      exact hown1 r hr hh
    rw [htext] at h1 h1r hcw hhelp hlist hgreet hsnooze
    simp only [handlePost, hsender, hbody, Bool.or_self, Bool.false_eq_true, if_false, henv,
      htext, hwc, commandPart, hsnooze, hsubc, hsubb, hcw, h1r, h1, hdb, ite_true, ite_false,
      hfind, respond]
  · have hbody : (bodyRec == "") = false := by
      rw [Bool.eq_false_iff]
      intro hb
      rw [eq_of_beq hb] at h2
      rw [show matchCancelRecurring (lowerL (jsTrimL ("" : String).toList)) = none from by decide]
        at h2
      cases h2
    obtain ⟨hcw, hhelp, hlist, hgreet, hsnooze⟩ := cancel_command_routing _ n2 (Or.inr h2)
    obtain ⟨t, hlt⟩ := matchCancelRecurring_head _ _ h2
    obtain ⟨c0, t0, htext, hlc, -⟩ := lowerL_head _ _ hlt
    obtain ⟨hsubc, hsubb⟩ := subscribe_matchers_false_of_c c0 t0 hlc
    have hfind : st.db.recurring.find? (fun rr =>
        rr.id == n2 && rr.userId == u.id && rr.active) = none := by
      rw [List.find?_eq_none]
      intro rr hr hh
      simp only [Bool.and_eq_true, beq_iff_eq] at hh
      exact hown2 rr hr ⟨hh.1.1, hh.1.2, hh.2⟩
    rw [htext] at h2 hcw hhelp hlist hgreet hsnooze
    simp only [handlePost, hsender, hbody, Bool.or_self, Bool.false_eq_true, if_false, henv,
      htext, hwc, commandPart, hsnooze, hsubc, hsubb, hcw, h2, hdb, ite_true, ite_false,
      hfind, respond]

/-- Witness for `cancel_only_own_records`: user 1 issuing "cancel 7"
and "cancel recurring 7" against records with id 7 owned by user 99. -/
theorem cancel_only_own_records_witness :
    handlePost
        ⟨⟨2026, 10, 12, 10, 0⟩, some ⟨1, "whatsapp:+15550001", none, 0, none, none⟩,
         false, none, true⟩
        ⟨[], [],
         ⟨[⟨1, "whatsapp:+15550001", none, 0, none, none⟩],
          [⟨7, 99, "secret", ⟨2026, 10, 13, 9, 0⟩⟩],
          [⟨7, 99, "secret rec", RecurrenceType.DAILY, "09:00", none, true, none⟩],
          [], 10, 20, 30⟩⟩
        (some "whatsapp:+15550001") (some "cancel 7") =
      ⟨⟨[], [],
        ⟨[⟨1, "whatsapp:+15550001", none, 0, none, none⟩],
         [⟨7, 99, "secret", ⟨2026, 10, 13, 9, 0⟩⟩],
         [⟨7, 99, "secret rec", RecurrenceType.DAILY, "09:00", none, true, none⟩],
         [], 10, 20, 30⟩⟩,
       [("whatsapp:+15550001",
         "I could not find a one-time reminder with id " ++ toString 7 ++ " for you.")], 200⟩ ∧
    handlePost
        ⟨⟨2026, 10, 12, 10, 0⟩, some ⟨1, "whatsapp:+15550001", none, 0, none, none⟩,
         false, none, true⟩
        ⟨[], [],
         ⟨[⟨1, "whatsapp:+15550001", none, 0, none, none⟩],
          [⟨7, 99, "secret", ⟨2026, 10, 13, 9, 0⟩⟩],
          [⟨7, 99, "secret rec", RecurrenceType.DAILY, "09:00", none, true, none⟩],
          [], 10, 20, 30⟩⟩
        (some "whatsapp:+15550001") (some "cancel recurring 7") =
      ⟨⟨[], [],
        ⟨[⟨1, "whatsapp:+15550001", none, 0, none, none⟩],
         [⟨7, 99, "secret", ⟨2026, 10, 13, 9, 0⟩⟩],
         [⟨7, 99, "secret rec", RecurrenceType.DAILY, "09:00", none, true, none⟩],
         [], 10, 20, 30⟩⟩,
       [("whatsapp:+15550001",
         "I could not find an active recurring reminder with id " ++ toString 7 ++
           " for you.")], 200⟩ :=
  cancel_only_own_records
    ⟨⟨2026, 10, 12, 10, 0⟩, some ⟨1, "whatsapp:+15550001", none, 0, none, none⟩,
     false, none, true⟩
    ⟨[], [],
     ⟨[⟨1, "whatsapp:+15550001", none, 0, none, none⟩],
      [⟨7, 99, "secret", ⟨2026, 10, 13, 9, 0⟩⟩],
      [⟨7, 99, "secret rec", RecurrenceType.DAILY, "09:00", none, true, none⟩],
      [], 10, 20, 30⟩⟩
    ⟨1, "whatsapp:+15550001", none, 0, none, none⟩ "whatsapp:+15550001"
    "cancel 7" "cancel recurring 7" 7 7
    (by decide) rfl rfl (by decide) (by decide) (by decide) (by decide) (by decide) (by decide)

/-- Every exit of the guided part answers with exactly one outbound
message. -/
theorem guidedPart_one_send (env : Env) (st : ChatState) (user : User) (sender : String)
    (text lower : List Char) (session : Option SessionState) :
    (guidedPart env st user sender text lower session).sends.length = 1 := by
  unfold guidedPart respond
  dsimp only
  repeat' split
  all_goals rfl

/-- Every exit of the NLP part answers with exactly one outbound
message. -/
theorem nlpPart_one_send (env : Env) (st : ChatState) (user : User) (sender : String)
    (text lower : List Char) (session : Option SessionState) :
    (nlpPart env st user sender text lower session).sends.length = 1 := by
  unfold nlpPart nlpConfidentCreate nlpRelativeFallback respond
  dsimp only
  repeat' split
  all_goals first
    | rfl
    | exact guidedPart_one_send env st user sender text lower session

/-- The snooze handler always produces exactly one outbound message. -/
theorem handleSnoozeCommand_one_send (dbOk : Bool) (now : Date) (db : DB) (user : User)
    (restTokens : List (List Char)) (sender : String) :
    (handleSnoozeCommand dbOk now db user restTokens sender).2.length = 1 := by
  unfold handleSnoozeCommand
  dsimp only
  repeat' split
  all_goals rfl

/-- The list branch always produces exactly one outbound message. -/
theorem listBranch_one_send (env : Env) (st : ChatState) (user : User) (sender : String) :
    (listBranch env st user sender).sends.length = 1 := by
  unfold listBranch respond
  dsimp only
  repeat' split
  all_goals rfl

/-- Every exit of the command cascade answers with exactly one outbound
message. -/
theorem commandPart_one_send (env : Env) (st : ChatState) (user : User) (sender : String)
    (text lower : List Char) (tokens : List (List Char)) (session : Option SessionState) :
    (commandPart env st user sender text lower tokens session).sends.length = 1 := by
  unfold commandPart respond
  dsimp only
  repeat' split
  all_goals first
    | rfl
    | exact handleSnoozeCommand_one_send env.dbOk env.now st.db user tokens.tail sender
    | exact listBranch_one_send env st user sender
    | exact nlpPart_one_send env st user sender text lower session

/-- The weather-city prompt branch always answers with exactly one
outbound message. -/
theorem weatherCityBranch_one_send (env : Env) (st : ChatState) (user : User)
    (sender : String) (text : List Char) :
    (weatherCityBranch env st user sender text).sends.length = 1 := by
  unfold weatherCityBranch respond
  dsimp only
  repeat' split
  all_goals rfl

/-- C7 counterexample: when user resolution throws, the handler replies
HTTP 500 and sends ZERO outbound messages — the required single
acknowledgment is not sent. -/
theorem handler_user_error_zero_sends_cex :
    (handlePost ⟨⟨2026, 10, 12, 10, 0⟩, none, false, none, true⟩
        ⟨[], [], ⟨[], [], [], [], 10, 20, 30⟩⟩
        (some "whatsapp:+15550001") (some "hello")).sends = [] ∧
    (handlePost ⟨⟨2026, 10, 12, 10, 0⟩, none, false, none, true⟩
        ⟨[], [], ⟨[], [], [], [], 10, 20, 30⟩⟩
        (some "whatsapp:+15550001") (some "hello")).status = 500 := by
  exact ⟨rfl, rfl⟩

/-- C7 (amended): for every inbound message with a sender and a
non-empty body, if user resolution succeeds the handler performs
exactly one outbound send attempt on its synchronous path — never zero,
never more; if user resolution throws, it performs none and answers
HTTP 500. -/
theorem handler_exactly_one_send (env : Env) (st : ChatState) (sender body : String)
    (u : User) (hs : (sender == "") = false) (hb : (body == "") = false) :
    (env.userResolved = some u →
      (handlePost env st (some sender) (some body)).sends.length = 1) ∧
    (env.userResolved = none →
      (handlePost env st (some sender) (some body)).sends = [] ∧
      (handlePost env st (some sender) (some body)).status = 500) := by
  constructor
  · intro hres
    simp only [handlePost, hs, hb, Bool.or_self, Bool.false_eq_true, if_false, hres]
    split
    · exact weatherCityBranch_one_send env st u sender (jsTrimL body.toList)
    · exact commandPart_one_send env st u sender (jsTrimL body.toList)
        (lowerL (jsTrimL body.toList)) (jsSplitWs (lowerL (jsTrimL body.toList)))
        (lookupSession st.sessions sender)
  · intro hres
    simp only [handlePost, hs, hb, Bool.or_self, Bool.false_eq_true, if_false, hres]
    exact ⟨trivial, trivial⟩

/-- Witness for `handler_exactly_one_send` on a "hello" greeting with a
resolved user. -/
theorem handler_exactly_one_send_witness :
    ((⟨⟨2026, 10, 12, 10, 0⟩, some ⟨1, "whatsapp:+15550001", none, 0, none, none⟩,
        false, none, true⟩ : Env).userResolved =
        some ⟨1, "whatsapp:+15550001", none, 0, none, none⟩ →
      (handlePost ⟨⟨2026, 10, 12, 10, 0⟩,
          some ⟨1, "whatsapp:+15550001", none, 0, none, none⟩, false, none, true⟩
        ⟨[], [], ⟨[⟨1, "whatsapp:+15550001", none, 0, none, none⟩], [], [], [], 10, 20, 30⟩⟩
        (some "whatsapp:+15550001") (some "hello")).sends.length = 1) ∧
    ((⟨⟨2026, 10, 12, 10, 0⟩, some ⟨1, "whatsapp:+15550001", none, 0, none, none⟩,
        false, none, true⟩ : Env).userResolved = none →
      (handlePost ⟨⟨2026, 10, 12, 10, 0⟩,
          some ⟨1, "whatsapp:+15550001", none, 0, none, none⟩, false, none, true⟩
        ⟨[], [], ⟨[⟨1, "whatsapp:+15550001", none, 0, none, none⟩], [], [], [], 10, 20, 30⟩⟩
        (some "whatsapp:+15550001") (some "hello")).sends = [] ∧
      (handlePost ⟨⟨2026, 10, 12, 10, 0⟩,
          some ⟨1, "whatsapp:+15550001", none, 0, none, none⟩, false, none, true⟩
        ⟨[], [], ⟨[⟨1, "whatsapp:+15550001", none, 0, none, none⟩], [], [], [], 10, 20, 30⟩⟩
        (some "whatsapp:+15550001") (some "hello")).status = 500) :=
  handler_exactly_one_send
    ⟨⟨2026, 10, 12, 10, 0⟩, some ⟨1, "whatsapp:+15550001", none, 0, none, none⟩,
     false, none, true⟩
    ⟨[], [], ⟨[⟨1, "whatsapp:+15550001", none, 0, none, none⟩], [], [], [], 10, 20, 30⟩⟩
    "whatsapp:+15550001" "hello" ⟨1, "whatsapp:+15550001", none, 0, none, none⟩
    (by decide) (by decide)


/-! ### Guided-flow round trip (C6) -/

/-- Two distinct characters never compare equal at the head of a list
equality. -/
theorem beq_false_of_head_ne (x y : Char) (t s : List Char) (h : x ≠ y) :
    ((x :: t) == (y :: s)) = false := by
  rw [Bool.eq_false_iff]
  intro hb
  have he := eq_of_beq hb
  injection he with h1 _
  exact h h1

/-- A digit differs from any non-digit character. -/
theorem digit_ne (c y : Char) (hc : c.isDigit = true) (hy : y.isDigit = false) :
    c ≠ y := by
  intro he
  rw [he, hy] at hc
  cases hc

/-- Digits are not whitespace. -/
theorem isWS_false_of_isDigit (c : Char) (h : c.isDigit = true) : isWS c = false := by
  rw [Bool.eq_false_iff]
  intro hw
  rw [isWS] at hw
  simp only [Bool.or_eq_true, beq_iff_eq] at hw
  rcases hw with ((rfl | rfl) | rfl) | rfl <;> exact absurd h (by decide)

/-- A successful greedy digit take starts with a digit. -/
theorem take2or1_head_digit (l : List Char) (k : Nat → List Char → Option (Nat × Nat))
    (v : Nat × Nat) (h : take2or1 l k = some v) :
    ∃ c cs, l = c :: cs ∧ c.isDigit = true := by
  cases l with
  | nil => rw [take2or1] at h; cases h
  | cons a t =>
    refine ⟨a, t, rfl, ?_⟩
    by_cases ha : a.isDigit = true
    · exact ha
    · exfalso
      cases t with
      | nil => rw [take2or1, if_neg ha] at h; cases h
      | cons b r => rw [take2or1, if_neg ha] at h; cases h

/-- A successful greedy digit take splits the input into a non-empty
digit prefix and a remainder accepted by the continuation. -/
theorem take2or1_split (l : List Char) (k : Nat → List Char → Option (Nat × Nat))
    (v : Nat × Nat) (h : take2or1 l k = some v) :
    ∃ ds rest n, l = ds ++ rest ∧ (∀ c ∈ ds, c.isDigit = true) ∧ k n rest = some v := by
  cases l with
  | nil => rw [take2or1] at h; cases h
  | cons a t =>
    cases t with
    | nil =>
      rw [take2or1] at h
      by_cases ha : a.isDigit = true
      · rw [if_pos ha] at h
        refine ⟨[a], [], a.toNat - 48, rfl, ?_, h⟩
        intro c hc
        rw [List.mem_singleton] at hc
        subst hc
        exact ha
      · rw [if_neg ha] at h; cases h
    | cons b r =>
      rw [take2or1] at h
      by_cases ha : a.isDigit = true
      · rw [if_pos ha] at h
        by_cases hb : b.isDigit = true
        · rw [if_pos hb] at h
          cases hk : k ((a.toNat - 48) * 10 + (b.toNat - 48)) r with
          | some w =>
            rw [hk] at h
            dsimp only at h
            refine ⟨[a, b], r, (a.toNat - 48) * 10 + (b.toNat - 48), rfl, ?_, hk.trans h⟩
            intro c hc
            rcases List.mem_cons.mp hc with rfl | hc
            · exact ha
            · rw [List.mem_singleton] at hc
              subst hc
              exact hb
          | none =>
            rw [hk] at h
            dsimp only at h
            refine ⟨[a], b :: r, a.toNat - 48, rfl, ?_, h⟩
            intro c hc
            rw [List.mem_singleton] at hc
            subst hc
            exact ha
        · rw [if_neg hb] at h
          refine ⟨[a], b :: r, a.toNat - 48, rfl, ?_, h⟩
          intro c hc
          rw [List.mem_singleton] at hc
          subst hc
          exact ha
      · rw [if_neg ha] at h; cases h

/-- A successful exactly-two-digit take splits the input into a
two-digit prefix and a remainder accepted by the continuation. -/
theorem take2_split (l : List Char) (k : Nat → List Char → Option (Nat × Nat))
    (v : Nat × Nat) (h : take2 l k = some v) :
    ∃ ds rest n, l = ds ++ rest ∧ (∀ c ∈ ds, c.isDigit = true) ∧ k n rest = some v := by
  cases l with
  | nil => rw [take2] at h; cases h
  | cons a t =>
    cases t with
    | nil => rw [take2] at h; cases h
    | cons b r =>
      rw [take2] at h
      by_cases hab : (a.isDigit && b.isDigit) = true
      · rw [if_pos hab] at h
        rw [Bool.and_eq_true] at hab
        refine ⟨[a, b], r, (a.toNat - 48) * 10 + (b.toNat - 48), rfl, ?_, h⟩
        intro c hc
        rcases List.mem_cons.mp hc with rfl | hc
        · exact hab.1
        · rw [List.mem_singleton] at hc
          subst hc
          exact hab.2
      · rw [if_neg hab] at h; cases h

/-- Every character of a list is either a dot or survives `optDot`. -/
theorem optDot_mem (l : List Char) : ∀ c ∈ l, c = '.' ∨ c ∈ optDot l := by
  cases l with
  | nil => intro c hc; cases hc
  | cons a t =>
    intro c hc
    rw [optDot]
    by_cases ha : (a == '.') = true
    · rw [if_pos ha]
      rcases List.mem_cons.mp hc with rfl | hc
      · exact Or.inl (eq_of_beq ha)
      · exact Or.inr hc
    · rw [if_neg ha]
      exact Or.inr hc

/-- Every character of a list is an m/M or survives `optM`. -/
theorem optM_mem (l : List Char) : ∀ c ∈ l, c = 'm' ∨ c = 'M' ∨ c ∈ optM l := by
  cases l with
  | nil => intro c hc; cases hc
  | cons a t =>
    intro c hc
    rw [optM]
    by_cases ha : (a == 'm' || a == 'M') = true
    · rw [if_pos ha]
      rcases List.mem_cons.mp hc with rfl | hc
      · simp only [Bool.or_eq_true, beq_iff_eq] at ha
        rcases ha with rfl | rfl
        · exact Or.inl rfl
        · exact Or.inr (Or.inl rfl)
      · exact Or.inr (Or.inr hc)
    · rw [if_neg ha]
      exact Or.inr (Or.inr hc)

/-- A full meridiem match only consumes time characters. -/
theorem meridiemFull_chars (l : List Char) (b : Bool) (h : meridiemFull l = some b) :
    ∀ c ∈ l, timeChar c = true := by
  cases l with
  | nil => rw [meridiemFull] at h; cases h
  | cons c0 rest =>
    rw [meridiemFull] at h
    by_cases hc0 : (c0 == 'a' || c0 == 'A' || c0 == 'p' || c0 == 'P') = true
    · rw [if_pos hc0] at h
      by_cases he : (optDot (optM (optDot rest))).isEmpty = true
      · intro c hc
        rcases List.mem_cons.mp hc with rfl | hc
        · simp only [Bool.or_eq_true, beq_iff_eq] at hc0
          rcases hc0 with ((rfl | rfl) | rfl) | rfl <;> decide
        · rcases optDot_mem rest c hc with rfl | h1
          · decide
          · rcases optM_mem _ c h1 with rfl | rfl | h2
            · decide
            · decide
            · rcases optDot_mem _ c h2 with rfl | h3
              · decide
              · exfalso
                have hemp : optDot (optM (optDot rest)) = [] := by
                  cases hl : optDot (optM (optDot rest)) with
                  | nil => rfl
                  | cons x xs => rw [hl] at he; cases he
                rw [hemp] at h3
                cases h3
      · rw [if_neg he] at h; cases h
    · rw [if_neg hc0] at h; cases h

/-- The 24-hour format only consumes time characters. -/
theorem parse24_chars (l : List Char) (v : Nat × Nat) (h : parse24 l = some v) :
    ∀ c ∈ l, timeChar c = true := by
  rw [parse24] at h
  obtain ⟨ds, rest, n, hl, hds, hk⟩ := take2or1_split _ _ _ h
  subst hl
  split at hk
  · rename_i l2
    obtain ⟨ds2, rest3, n2, hl2, hds2, hk2⟩ := take2_split _ _ _ hk
    subst hl2
    cases rest3 with
    | cons x xs => simp [List.isEmpty] at hk2
    | nil =>
      intro c hc
      simp only [List.append_nil, List.mem_append, List.mem_cons] at hc
      rcases hc with hc | rfl | hc
      · simp [timeChar, hds c hc]
      · decide
      · simp [timeChar, hds2 c hc]
  · cases hk

/-- The spaced 12-hour format only consumes time characters. -/
theorem parse12Sp_chars (l : List Char) (v : Nat × Nat) (h : parse12Sp l = some v) :
    ∀ c ∈ l, timeChar c = true := by
  rw [parse12Sp] at h
  obtain ⟨ds, rest, n, hl, hds, hk⟩ := take2or1_split _ _ _ h
  subst hl
  split at hk
  · rename_i l2
    obtain ⟨ds2, rest3, n2, hl2, hds2, hk2⟩ := take2_split _ _ _ hk
    subst hl2
    split at hk2
    · rename_i l3
      cases hm : meridiemFull l3 with
      | none => rw [hm] at hk2; cases hk2
      | some mb =>
        have hml3 := meridiemFull_chars l3 mb hm
        intro c hc
        simp only [List.mem_append, List.mem_cons] at hc
        rcases hc with hc | rfl | hc | rfl | hc
        · simp [timeChar, hds c hc]
        · decide
        · simp [timeChar, hds2 c hc]
        · decide
        · exact hml3 c hc
    · cases hk2
  · cases hk

/-- The attached 12-hour format only consumes time characters. -/
theorem parse12Ns_chars (l : List Char) (v : Nat × Nat) (h : parse12Ns l = some v) :
    ∀ c ∈ l, timeChar c = true := by
  rw [parse12Ns] at h
  obtain ⟨ds, rest, n, hl, hds, hk⟩ := take2or1_split _ _ _ h
  subst hl
  split at hk
  · rename_i l2
    obtain ⟨ds2, rest3, n2, hl2, hds2, hk2⟩ := take2_split _ _ _ hk
    subst hl2
    cases hm : meridiemFull rest3 with
    | none => rw [hm] at hk2; cases hk2
    | some mb =>
      have hml3 := meridiemFull_chars rest3 mb hm
      intro c hc
      simp only [List.mem_append, List.mem_cons] at hc
      rcases hc with hc | rfl | hc | hc
      · simp [timeChar, hds c hc]
      · decide
      · simp [timeChar, hds2 c hc]
      · exact hml3 c hc
  · cases hk

/-- A strict time parse only consumes time characters. -/
theorem parseTimeStrict_chars (l : List Char) (v : Nat × Nat)
    (h : parseTimeStrict l = some v) : ∀ c ∈ l, timeChar c = true := by
  rw [parseTimeStrict] at h
  cases h24 : parse24 l with
  | some w => exact parse24_chars l w h24
  | none =>
    rw [h24] at h
    dsimp only at h
    cases hsp : parse12Sp l with
    | some w => exact parse12Sp_chars l w hsp
    | none =>
      rw [hsp] at h
      dsimp only at h
      exact parse12Ns_chars l v h

/-- A strict time parse starts with a digit. -/
theorem parseTimeStrict_head_digit (l : List Char) (v : Nat × Nat)
    (h : parseTimeStrict l = some v) : ∃ c cs, l = c :: cs ∧ c.isDigit = true := by
  rw [parseTimeStrict] at h
  cases h24 : parse24 l with
  | some w => rw [parse24] at h24; exact take2or1_head_digit _ _ _ h24
  | none =>
    rw [h24] at h
    dsimp only at h
    cases hsp : parse12Sp l with
    | some w => rw [parse12Sp] at hsp; exact take2or1_head_digit _ _ _ hsp
    | none =>
      rw [hsp] at h
      dsimp only at h
      rw [parse12Ns] at h
      exact take2or1_head_digit _ _ _ h

/-- A prefix test implies membership of the pattern characters. -/
theorem beginsWith_mem : ∀ (l pat : List Char), beginsWith l pat = true →
    ∀ c ∈ pat, c ∈ l := by
  intro l pat
  induction pat generalizing l with
  | nil => intro _ c hc; cases hc
  | cons p ps ih =>
    intro h c hc
    cases l with
    | nil => rw [beginsWith] at h; cases h
    | cons a t =>
      rw [beginsWith, Bool.and_eq_true] at h
      obtain ⟨h1, h2⟩ := h
      rcases List.mem_cons.mp hc with rfl | hc
      · rw [← eq_of_beq h1]
        exact List.mem_cons_self a t
      · exact List.mem_cons_of_mem a (ih t h2 c hc)

/-- A substring test implies membership of the pattern characters. -/
theorem containsSub_mem : ∀ (l pat : List Char), containsSub l pat = true →
    ∀ c ∈ pat, c ∈ l := by
  intro l
  induction l with
  | nil =>
    intro pat h c hc
    cases pat with
    | nil => cases hc
    | cons p ps => rw [containsSub] at h; simp [beginsWith] at h
  | cons a t ih =>
    intro pat h c hc
    rw [containsSub] at h
    by_cases hb : beginsWith (a :: t) pat = true
    · exact beginsWith_mem _ _ hb c hc
    · rw [if_neg hb] at h
      exact List.mem_cons_of_mem a (ih pat h c hc)

/-- No time character lowercases to the letter r. -/
theorem timeChar_toLower_ne_r (c : Char) (h : timeChar c = true) :
    c.toLower ≠ 'r' := by
  rw [timeChar] at h
  simp only [Bool.or_eq_true, beq_iff_eq] at h
  rcases h with ((((((((hd | rfl) | rfl) | rfl) | rfl) | rfl) | rfl) | rfl) | rfl) | rfl
  · rw [toLower_of_isDigit c hd]
    intro he
    rw [he] at hd
    exact absurd hd (by decide)
  all_goals decide

/-- A text made of time characters never looks reminder-shaped. -/
theorem looksLike_false_of_time (l : List Char)
    (hchars : ∀ c ∈ l, timeChar c = true) :
    looksLikeReminderL (lowerL l) = false := by
  have hno : ∀ pat : List Char, 'r' ∈ pat → containsSub (lowerL l) pat = false := by
    intro pat hr
    rw [Bool.eq_false_iff]
    intro hb
    have hm : 'r' ∈ lowerL l := containsSub_mem _ _ hb 'r' hr
    rw [lowerL] at hm
    obtain ⟨x, hx, hlx⟩ := List.mem_map.mp hm
    exact timeChar_toLower_ne_r x (hchars x hx) hlx
  rw [looksLikeReminderL, hno _ (by decide), hno _ (by decide)]
  rfl

/-- The subscribe-weather matchers reject any text whose first character
is not whitespace and does not lowercase to s. -/
theorem subscribe_matchers_false_of_head (c0 : Char) (t : List Char)
    (hws : isWS c0 = false) (hns : Char.toLower c0 ≠ 's') :
    matchSubscribeCity (c0 :: t) = none ∧ isSubscribeWeatherBare (c0 :: t) = false := by
  have hdrop : (c0 :: t).dropWhile isWS = c0 :: t := by
    rw [List.dropWhile_cons, if_neg (by simp [hws])]
  have hlit : dropLitCI (c0 :: t) "subscribe".toList = none := by
    have hcond : ¬((c0.toLower == 's'.toLower) = true) := by
      intro hbad
      exact hns (by rw [eq_of_beq hbad]; rfl)
    have hsub : "subscribe".toList = 's' :: "ubscribe".toList := rfl
    rw [hsub, dropLitCI, if_neg hcond]
  constructor
  · rw [matchSubscribeCity, hdrop, hlit]
    rfl
  · rw [isSubscribeWeatherBare, hdrop, hlit]
    rfl

/-- Routing facts forced by a text that parses as a strict time: it is
no command, no greeting, and never reminder-shaped. -/
theorem time_text_routing (c : Char) (cs : List Char) (hdig : c.isDigit = true)
    (hchars : ∀ x ∈ c :: cs, timeChar x = true) :
    ((jsSplitWs (lowerL (c :: cs))).headD [] == "snooze".toList) = false ∧
    matchSubscribeCity (c :: cs) = none ∧
    isSubscribeWeatherBare (c :: cs) = false ∧
    isCancelWeatherL (lowerL (c :: cs)) = false ∧
    matchCancelRecurring (lowerL (c :: cs)) = none ∧
    matchCancelOneTime (lowerL (c :: cs)) = none ∧
    isHelpL (lowerL (c :: cs)) = false ∧
    isListL (lowerL (c :: cs)) = false ∧
    isGreetingL (lowerL (c :: cs)) = false ∧
    looksLikeReminderL (lowerL (c :: cs)) = false := by
  have hlow : lowerL (c :: cs) = c :: lowerL cs := by
    simp [lowerL, toLower_of_isDigit c hdig]
  have hws : isWS c = false := isWS_false_of_isDigit c hdig
  have hnec : ∀ y : Char, y.isDigit = false → c ≠ y := fun y hy => digit_ne c y hdig hy
  have hns : Char.toLower c ≠ 's' := by
    rw [toLower_of_isDigit c hdig]
    exact hnec 's' (by decide)
  have hcl : dropLit (c :: lowerL cs) "cancel".toList = none := by
    have hcond : ¬((c == 'c') = true) := fun hb => hnec 'c' (by decide) (eq_of_beq hb)
    have e : "cancel".toList = 'c' :: "ancel".toList := rfl
    rw [e, dropLit, if_neg hcond]
  refine ⟨?_, ?_, ?_, ?_, ?_, ?_, ?_, ?_, ?_, ?_⟩
  · rw [hlow]
    obtain ⟨suffix, ts, hs⟩ := jsSplitWs_head_of_head c (lowerL cs) hws
    rw [hs]
    have hsn : "snooze".toList = 's' :: "nooze".toList := rfl
    rw [hsn]
    exact beq_false_of_head_ne c 's' suffix _ (hnec 's' (by decide))
  · exact (subscribe_matchers_false_of_head c cs hws hns).1
  · exact (subscribe_matchers_false_of_head c cs hws hns).2
  · rw [hlow, isCancelWeatherL]
    have e1 : "cancel weather".toList = 'c' :: "ancel weather".toList := rfl
    have e2 : "unsubscribe weather".toList = 'u' :: "nsubscribe weather".toList := rfl
    rw [e1, e2, beq_false_of_head_ne c 'c' _ _ (hnec 'c' (by decide)),
      beq_false_of_head_ne c 'u' _ _ (hnec 'u' (by decide))]
    rfl
  · rw [hlow, matchCancelRecurring, hcl]
    rfl
  · rw [hlow, matchCancelOneTime, hcl]
    rfl
  · rw [hlow, isHelpL]
    have e1 : "help".toList = 'h' :: "elp".toList := rfl
    have e2 : "menu".toList = 'm' :: "enu".toList := rfl
    rw [e1, e2, beq_false_of_head_ne c 'h' _ _ (hnec 'h' (by decide)),
      beq_false_of_head_ne c 'm' _ _ (hnec 'm' (by decide))]
    rfl
  · rw [hlow, isListL]
    have e1 : "list".toList = 'l' :: "ist".toList := rfl
    have e2 : "list reminders".toList = 'l' :: "ist reminders".toList := rfl
    rw [e1, e2, beq_false_of_head_ne c 'l' _ _ (hnec 'l' (by decide)),
      beq_false_of_head_ne c 'l' _ _ (hnec 'l' (by decide))]
    rfl
  · rw [hlow, isGreetingL]
    have e1 : "hi".toList = 'h' :: "i".toList := rfl
    have e2 : "hello".toList = 'h' :: "ello".toList := rfl
    have e3 : "hey".toList = 'h' :: "ey".toList := rfl
    rw [e1, e2, e3, beq_false_of_head_ne c 'h' _ _ (hnec 'h' (by decide)),
      beq_false_of_head_ne c 'h' _ _ (hnec 'h' (by decide)),
      beq_false_of_head_ne c 'h' _ _ (hnec 'h' (by decide))]
    rfl
  · exact looksLike_false_of_time (c :: cs) hchars

/-- Reading back a just-written session. -/
theorem lookupSession_set (l : List (String × SessionState)) (k : String)
    (v : SessionState) : lookupSession (setSession l k v) k = some v := by
  simp [lookupSession, setSession, List.find?_cons]

/-- Reading back a just-deleted session. -/
theorem lookupSession_delete (l : List (String × SessionState)) (k : String) :
    lookupSession (deleteSession l k) k = none := by
  rw [lookupSession, deleteSession]
  rw [List.find?_eq_none.mpr]
  · rfl
  · intro p hp
    have hmem := (List.mem_filter.mp hp).2
    simp only [bne_iff_ne, ne_eq] at hmem
    simp [hmem]

/-- When none of the command guards fire, the command cascade hands the
text to the NLP-first attempt. -/
theorem commandPart_to_nlp (env : Env) (st : ChatState) (u : User) (sender : String)
    (text lower : List Char) (tokens : List (List Char)) (session : Option SessionState)
    (h1 : ((tokens.headD []) == "snooze".toList) = false)
    (h2 : matchSubscribeCity text = none)
    (h3 : isSubscribeWeatherBare text = false)
    (h4 : isCancelWeatherL lower = false)
    (h5 : matchCancelRecurring lower = none)
    (h6 : matchCancelOneTime lower = none)
    (h7 : isHelpL lower = false)
    (h8 : isListL lower = false) :
    commandPart env st u sender text lower tokens session =
      nlpPart env st u sender text lower session := by
  rw [commandPart, if_neg (by rw [h1]; exact Bool.false_ne_true)]
  rw [h2]
  dsimp only
  rw [if_neg (by rw [h3]; exact Bool.false_ne_true),
    if_neg (by rw [h4]; exact Bool.false_ne_true)]
  rw [h5]
  dsimp only
  rw [h6]
  dsimp only
  rw [if_neg (by rw [h7]; exact Bool.false_ne_true),
    if_neg (by rw [h8]; exact Bool.false_ne_true)]

/-- When the NLP-first predicate is false, the NLP part is the guided
part. -/
theorem nlpPart_to_guided (env : Env) (st : ChatState) (u : User) (sender : String)
    (text lower : List Char) (session : Option SessionState)
    (hskip : ((!isHelpL lower && (session.isNone || decide (0 < u.reminderCount))) &&
      looksLikeReminderL lower) = false) :
    nlpPart env st u sender text lower session =
      guidedPart env st u sender text lower session := by
  rw [nlpPart]
  rw [hskip]
  rfl

/-- The guided part on a greeting opens an awaiting-message session. -/
theorem guidedPart_greet (env : Env) (st : ChatState) (u : User) (sender : String)
    (text lower : List Char) (session : Option SessionState)
    (hg : isGreetingL lower = true) :
    guidedPart env st u sender text lower session =
      ⟨⟨setSession st.sessions sender ⟨SessionStage.awaiting_message, none⟩,
        st.weatherCitySessions, st.db⟩,
       [(sender, buildWelcomeMessage u.profileName)], 200⟩ := by
  rw [guidedPart.eq_def, if_pos hg]

/-- The guided part on an open awaiting-message session stores the
trimmed text and advances to awaiting-time. -/
theorem guidedPart_note (env : Env) (st : ChatState) (u : User) (sender : String)
    (text lower : List Char) (pm : Option String)
    (hg : isGreetingL lower = false) :
    guidedPart env st u sender text lower (some ⟨SessionStage.awaiting_message, pm⟩) =
      ⟨⟨setSession st.sessions sender ⟨SessionStage.awaiting_time, some text.asString⟩,
        st.weatherCitySessions, st.db⟩,
       [(sender,
         "Noted. Now tell me what time today you want this reminder.\nExamples: \"9:36AM\", \"9:36 PM\", or \"14:56\".")],
       200⟩ := by
  rw [guidedPart.eq_def, if_neg (by rw [hg]; exact Bool.false_ne_true)]

/-- The guided part on an open awaiting-time session with a valid time
and a working database persists the reminder and destroys the
session. -/
theorem guidedPart_time (env : Env) (st : ChatState) (u : User) (sender : String)
    (text lower : List Char) (M : String) (hh mm : Nat)
    (hg : isGreetingL lower = false)
    (hp : parseTimeStrict text = some (hh, mm))
    (hdb : env.dbOk = true) :
    guidedPart env st u sender text lower (some ⟨SessionStage.awaiting_time, some M⟩) =
      ⟨⟨deleteSession st.sessions sender, st.weatherCitySessions,
        createOneTimeTxn true st.db u.id (timeRoll env.now hh mm) M⟩,
       [(sender, "All set" ++ nameSuffix u.profileName ++ ". I will remind you: \"" ++ M ++
         "\" at " ++ formatDate (timeRoll env.now hh mm) ++ ".")], 200⟩ := by
  rw [guidedPart.eq_def, if_neg (by rw [hg]; exact Bool.false_ne_true)]
  dsimp only
  rw [hp]
  dsimp only
  rw [hdb]
  rfl

/-- A request whose body triggers no command guard reduces to the guided
part. -/
theorem handlePost_to_guided (env : Env) (st : ChatState) (u : User)
    (sender rawBody : String)
    (hs : (sender == "") = false) (hb : (rawBody == "") = false)
    (hr : env.userResolved = some u)
    (hwc : st.weatherCitySessions.contains sender = false)
    (h1 : ((jsSplitWs (lowerL (jsTrimL rawBody.toList))).headD [] == "snooze".toList) = false)
    (h2 : matchSubscribeCity (jsTrimL rawBody.toList) = none)
    (h3 : isSubscribeWeatherBare (jsTrimL rawBody.toList) = false)
    (h4 : isCancelWeatherL (lowerL (jsTrimL rawBody.toList)) = false)
    (h5 : matchCancelRecurring (lowerL (jsTrimL rawBody.toList)) = none)
    (h6 : matchCancelOneTime (lowerL (jsTrimL rawBody.toList)) = none)
    (h7 : isHelpL (lowerL (jsTrimL rawBody.toList)) = false)
    (h8 : isListL (lowerL (jsTrimL rawBody.toList)) = false)
    (hnlp : ((!isHelpL (lowerL (jsTrimL rawBody.toList)) &&
      ((lookupSession st.sessions sender).isNone || decide (0 < u.reminderCount))) &&
      looksLikeReminderL (lowerL (jsTrimL rawBody.toList))) = false) :
    handlePost env st (some sender) (some rawBody) =
      guidedPart env st u sender (jsTrimL rawBody.toList)
        (lowerL (jsTrimL rawBody.toList)) (lookupSession st.sessions sender) := by
  rw [handlePost]
  rw [if_neg (by rw [hs, hb]; decide)]
  rw [hr]
  dsimp only
  rw [if_neg (by rw [hwc]; exact Bool.false_ne_true)]
  rw [commandPart_to_nlp env st u sender _ _ _ _ h1 h2 h3 h4 h5 h6 h7 h8]
  exact nlpPart_to_guided env st u sender _ _ _ hnlp

/-- C6 counterexample: the round trip fails for a command-shaped or
untrimmed middle message.  After "hi", the message "help" is answered by
the help branch, which runs before the session machine; the pending
session then swallows the valid time string as the reminder text and no
reminder row is ever created.  And with the middle message
"call mom " (trailing blank) the stored message is the trimmed text,
not the verbatim text. -/
theorem guided_flow_command_message_cex :
    ((demoStep (demoStep (demoStep demoState "hi") "help") "14:56").db.reminders = [] ∧
     lookupSession (demoStep (demoStep (demoStep demoState "hi") "help") "14:56").sessions
       "u1" = some ⟨SessionStage.awaiting_time, some "14:56"⟩) ∧
    (demoStep (demoStep (demoStep demoState "hi") "call mom ") "14:56").db.reminders.map
      Reminder.message = ["call mom"] := by
  exact ⟨⟨rfl, rfl⟩, rfl⟩

/-- C6 (amended): guided-flow round trip — "hi" opens a session for any
user; a following non-empty message M that fires none of the command
guards (snooze, subscribe weather, cancel weather, cancel by id, help,
list), is not a greeting, and is not diverted to the NLP-first attempt
(the user is new or M does not look reminder-shaped) is stored, trimmed,
as the pending text; a final message parsing as a valid strict time
yields exactly one persisted OneTimeReminder whose message is the
trimmed M, timestamped today at that time or rolled forward exactly one
day when already past, and the sender's session is absent afterward. -/
theorem guided_flow_round_trip
    (env1 env2 env3 : Env) (st : ChatState) (u1 u2 u3 : User) (sender M T : String)
    (hh mm : Nat)
    (hs : (sender == "") = false)
    (hMne : (M == "") = false)
    (hr1 : env1.userResolved = some u1)
    (hr2 : env2.userResolved = some u2)
    (hr3 : env3.userResolved = some u3)
    (hwc : st.weatherCitySessions.contains sender = false)
    (h1M : ((jsSplitWs (lowerL (jsTrimL M.toList))).headD [] == "snooze".toList) = false)
    (h2M : matchSubscribeCity (jsTrimL M.toList) = none)
    (h3M : isSubscribeWeatherBare (jsTrimL M.toList) = false)
    (h4M : isCancelWeatherL (lowerL (jsTrimL M.toList)) = false)
    (h5M : matchCancelRecurring (lowerL (jsTrimL M.toList)) = none)
    (h6M : matchCancelOneTime (lowerL (jsTrimL M.toList)) = none)
    (h7M : isHelpL (lowerL (jsTrimL M.toList)) = false)
    (h8M : isListL (lowerL (jsTrimL M.toList)) = false)
    (hgM : isGreetingL (lowerL (jsTrimL M.toList)) = false)
    (hnlpM : (decide (0 < u2.reminderCount) &&
      looksLikeReminderL (lowerL (jsTrimL M.toList))) = false)
    (hT : parseTimeStrict (jsTrimL T.toList) = some (hh, mm))
    (hdb3 : env3.dbOk = true) :
    handlePost env3
        (handlePost env2 (handlePost env1 st (some sender) (some "hi")).state
          (some sender) (some M)).state (some sender) (some T) =
      ⟨⟨deleteSession (setSession (setSession st.sessions sender
            ⟨SessionStage.awaiting_message, none⟩) sender
            ⟨SessionStage.awaiting_time, some (jsTrimL M.toList).asString⟩) sender,
        st.weatherCitySessions,
        createOneTimeTxn true st.db u3.id (timeRoll env3.now hh mm)
          (jsTrimL M.toList).asString⟩,
       [(sender, "All set" ++ nameSuffix u3.profileName ++ ". I will remind you: \"" ++
         (jsTrimL M.toList).asString ++ "\" at " ++ formatDate (timeRoll env3.now hh mm) ++
         ".")],
       200⟩ ∧
    (handlePost env3
        (handlePost env2 (handlePost env1 st (some sender) (some "hi")).state
          (some sender) (some M)).state (some sender) (some T)).state.db.reminders =
      st.db.reminders ++ [⟨st.db.nextReminderId, u3.id, (jsTrimL M.toList).asString,
        timeRoll env3.now hh mm⟩] ∧
    lookupSession (handlePost env3
        (handlePost env2 (handlePost env1 st (some sender) (some "hi")).state
          (some sender) (some M)).state (some sender) (some T)).state.sessions sender =
      none := by
  have hlf1 : looksLikeReminderL (lowerL (jsTrimL ("hi" : String).toList)) = false := by
    decide
  have e1 : handlePost env1 st (some sender) (some "hi") =
      ⟨⟨setSession st.sessions sender ⟨SessionStage.awaiting_message, none⟩,
        st.weatherCitySessions, st.db⟩,
       [(sender, buildWelcomeMessage u1.profileName)], 200⟩ := by
    rw [handlePost_to_guided env1 st u1 sender "hi" hs (by decide) hr1 hwc
      (by decide) (by decide) (by decide) (by decide) (by decide) (by decide)
      (by decide) (by decide) (by rw [hlf1, Bool.and_false])]
    exact guidedPart_greet env1 st u1 sender _ _ _ (by decide)
  have hsess1 : lookupSession (setSession st.sessions sender
      ⟨SessionStage.awaiting_message, none⟩) sender =
      some ⟨SessionStage.awaiting_message, none⟩ := lookupSession_set _ _ _
  have e2 : handlePost env2
      ⟨setSession st.sessions sender ⟨SessionStage.awaiting_message, none⟩,
        st.weatherCitySessions, st.db⟩
      (some sender) (some M) =
      ⟨⟨setSession (setSession st.sessions sender ⟨SessionStage.awaiting_message, none⟩)
          sender ⟨SessionStage.awaiting_time, some (jsTrimL M.toList).asString⟩,
        st.weatherCitySessions, st.db⟩,
       [(sender,
         "Noted. Now tell me what time today you want this reminder.\nExamples: \"9:36AM\", \"9:36 PM\", or \"14:56\".")],
       200⟩ := by
    rw [handlePost_to_guided env2
      ⟨setSession st.sessions sender ⟨SessionStage.awaiting_message, none⟩,
        st.weatherCitySessions, st.db⟩
      u2 sender M hs hMne hr2 hwc h1M h2M h3M h4M h5M h6M h7M h8M
      (by dsimp only
          rw [hsess1]
          simp only [Option.isNone_some, Bool.false_or, Bool.and_assoc, hnlpM,
            Bool.and_false])]
    dsimp only
    rw [hsess1]
    exact guidedPart_note env2 _ u2 sender _ _ none hgM
  obtain ⟨c, cs, htl, hdig⟩ := parseTimeStrict_head_digit _ _ hT
  have hchars0 := parseTimeStrict_chars _ _ hT
  rw [htl] at hchars0
  obtain ⟨r1, r2, r3, r4, r5, r6, r7, r8, r9, r10⟩ := time_text_routing c cs hdig hchars0
  rw [← htl] at r1 r2 r3 r4 r5 r6 r7 r8 r9 r10
  have hTne : (T == "") = false := by
    rw [Bool.eq_false_iff]
    intro hb
    have hTeq := eq_of_beq hb
    subst hTeq
    exact absurd (show ([] : List Char) = c :: cs from htl) (by simp)
  have e3 : handlePost env3
      ⟨setSession (setSession st.sessions sender ⟨SessionStage.awaiting_message, none⟩)
          sender ⟨SessionStage.awaiting_time, some (jsTrimL M.toList).asString⟩,
        st.weatherCitySessions, st.db⟩ (some sender) (some T) =
      ⟨⟨deleteSession (setSession (setSession st.sessions sender
            ⟨SessionStage.awaiting_message, none⟩) sender
            ⟨SessionStage.awaiting_time, some (jsTrimL M.toList).asString⟩) sender,
        st.weatherCitySessions,
        createOneTimeTxn true st.db u3.id (timeRoll env3.now hh mm)
          (jsTrimL M.toList).asString⟩,
       [(sender, "All set" ++ nameSuffix u3.profileName ++ ". I will remind you: \"" ++
         (jsTrimL M.toList).asString ++ "\" at " ++ formatDate (timeRoll env3.now hh mm) ++
         ".")],
       200⟩ := by
    rw [handlePost_to_guided env3
      ⟨setSession (setSession st.sessions sender ⟨SessionStage.awaiting_message, none⟩)
          sender ⟨SessionStage.awaiting_time, some (jsTrimL M.toList).asString⟩,
        st.weatherCitySessions, st.db⟩
      u3 sender T hs hTne hr3 hwc r1 r2 r3 r4 r5 r6 r7 r8
      (by simp only [r10, Bool.and_false])]
    dsimp only
    rw [lookupSession_set]
    exact guidedPart_time env3 _ u3 sender _ _ _ hh mm r9 hT hdb3
  have hfull : handlePost env3
      (handlePost env2 (handlePost env1 st (some sender) (some "hi")).state
        (some sender) (some M)).state (some sender) (some T) =
      ⟨⟨deleteSession (setSession (setSession st.sessions sender
            ⟨SessionStage.awaiting_message, none⟩) sender
            ⟨SessionStage.awaiting_time, some (jsTrimL M.toList).asString⟩) sender,
        st.weatherCitySessions,
        createOneTimeTxn true st.db u3.id (timeRoll env3.now hh mm)
          (jsTrimL M.toList).asString⟩,
       [(sender, "All set" ++ nameSuffix u3.profileName ++ ". I will remind you: \"" ++
         (jsTrimL M.toList).asString ++ "\" at " ++ formatDate (timeRoll env3.now hh mm) ++
         ".")],
       200⟩ := by
    rw [e1]
    dsimp only
    rw [e2]
    dsimp only
    rw [e3]
  refine ⟨hfull, ?_, ?_⟩
  · rw [hfull]
    rfl
  · rw [hfull]
    exact lookupSession_delete _ _

/-- C6 witness: the demo user sends hi, "call mom", "14:56" at 08:00 on
2026-01-05; exactly the reminder "call mom" at 2026-01-05 14:56 is
persisted and the session is gone. -/
theorem guided_flow_round_trip_witness :
    (handlePost demoEnv (handlePost demoEnv (handlePost demoEnv demoState
        (some "u1") (some "hi")).state (some "u1") (some "call mom")).state
      (some "u1") (some "14:56")).state.db.reminders =
      [⟨1, 1, "call mom", ⟨2026, 1, 5, 14, 56⟩⟩] ∧
    lookupSession (handlePost demoEnv (handlePost demoEnv (handlePost demoEnv demoState
        (some "u1") (some "hi")).state (some "u1") (some "call mom")).state
      (some "u1") (some "14:56")).state.sessions "u1" = none := by
  obtain ⟨hfull, hrem, hsess⟩ := guided_flow_round_trip demoEnv demoEnv demoEnv demoState
    demoUser demoUser demoUser "u1" "call mom" "14:56" 14 56 rfl rfl rfl rfl rfl rfl
    (by decide) (by decide) (by decide) (by decide) (by decide) (by decide) (by decide)
    (by decide) (by decide) rfl (by decide) rfl
  exact ⟨by rw [hrem]; decide, hsess⟩

end Broly
